import Mathlib

/-!
# CD-DA streaming engine of ZuluIDE (lib/ZuluIDE_platform_RP2040/audio.cpp)

A shallow embedding of the audio playback code: the file-scope variables of
`audio.cpp` become the fields of `AudioState`, every function becomes a pure
function from states to states (and a result), and the external collaborators
(CUE parser, SD card files, constants of headers) are collected in `AudioEnv`.

Machine integers are natural numbers reduced explicitly to their width.
-/

namespace ZuluAudio

/-! ## Machine arithmetic -/

/-- Conversion to `uint8_t`. -/
def u8 (n : Nat) : Nat := n % 256

/-- Conversion to `uint16_t`. -/
def u16 (n : Nat) : Nat := n % 65536

/-- Conversion to `uint32_t`. -/
def u32 (n : Nat) : Nat := n % 4294967296

/-- Conversion to `uint64_t`. -/
def u64 (n : Nat) : Nat := n % 18446744073709551616

/-- Subtraction of two `uint32_t` values (wraps around below zero). -/
def sub32 (a b : Nat) : Nat := (a % 4294967296 + (4294967296 - b % 4294967296)) % 4294967296

/-- Subtraction of two `uint64_t` values (wraps around below zero). -/
def sub64 (a b : Nat) : Nat :=
  (a % 18446744073709551616 + (18446744073709551616 - b % 18446744073709551616))
    % 18446744073709551616

/-! ## Data model -/

/-- Modelled from the spec: the track descriptor `CUETrackInfo` of the CUE parser (its
header is not part of the sources), with the fields that `audio.cpp` reads: owning file
index and name, byte offset of the track data in that file, track number, mode, sector
length, length of an unstored pregap, first sector of the data and of the track.
`track_mode` is the integer value of the `CUETrackMode` enumerator; `file_offset` is a
`uint64_t`, the lengths and sectors are `uint32_t`, the numbers are `int`. -/
structure CUETrackInfo where
  filename : String
  file_index : Int
  file_offset : Nat
  track_number : Int
  track_mode : Nat
  sector_length : Nat
  unstored_pregap_length : Nat
  data_start : Nat
  track_start : Nat

/-- The value of `CUETrackInfo track_info = {0}`. -/
def CUETrackInfo.zero : CUETrackInfo :=
  { filename := "", file_index := 0, file_offset := 0, track_number := 0, track_mode := 0,
    sector_length := 0, unstored_pregap_length := 0, data_start := 0, track_start := 0 }

/-- Contents of a file on the card: its size and its bytes by offset. -/
structure FileImage where
  size : Nat
  data : Nat → Nat

/-- An open `FsFile`: the image it reads and the read cursor. -/
structure OpenFile where
  size : Nat
  position : Nat
  data : Nat → Nat

/-- An `FsFile` handle: `none` is a closed handle. -/
abbrev FsFile := Option OpenFile

/-- The method `FsFile::isOpen`. -/
def FsFile.isOpen (f : FsFile) : Bool := f.isSome

/-- The method `FsFile::size` (0 on a closed handle). -/
def FsFile.size (f : FsFile) : Nat :=
  match f with
  | some o => o.size
  | none => 0

/-- The method `FsFile::position` (0 on a closed handle). -/
def FsFile.position (f : FsFile) : Nat :=
  match f with
  | some o => o.position
  | none => 0

/-- The enumeration `bufstate`. -/
inductive bufstate where
  | STALE
  | FILLING
  | PROCESSING
  | READY
  deriving DecidableEq, Repr

/-- The enumeration `bufselect`. -/
inductive bufselect where
  | A
  | B
  deriving DecidableEq, Repr

/-- Modelled from the spec: the enumeration `audio_status_code` of `ZuluIDE_audio.h`
(the header is not part of the sources), with the five values the specification lists:
no-status, playing, paused, completed, errored. -/
inductive audio_status_code where
  | ASC_NO_STATUS
  | ASC_PLAYING
  | ASC_PAUSED
  | ASC_COMPLETED
  | ASC_ERRORED
  deriving DecidableEq, Repr

open bufstate bufselect audio_status_code

/-- What `audio.cpp` takes from outside: constants of headers that are not part of the
sources, and the binding made by `audio_set_cue_parser`.

* `tracks` is the sequence of descriptors that `g_cue_parser->next_track` yields after
  `restart()`;
* `single_bin_file` and `audio_parent_isDir` are the statics set at binding time;
* `dir name` is the file that `audio_file.open(&audio_parent, name, O_RDONLY)` finds in the
  bound directory (`none` when the open fails). -/
structure AudioEnv where
  AUDIO_BUFFER_SIZE : Nat
  AUDIO_CHANNEL_ENABLE_MASK : Nat
  CUETrack_AUDIO : Nat
  tracks : List CUETrackInfo
  single_bin_file : Bool
  audio_parent_isDir : Bool
  dir : String → Option FileImage

/-- The macro `AUDIO_OUT_BUFFER_SIZE`. -/
def AudioEnv.AUDIO_OUT_BUFFER_SIZE (env : AudioEnv) : Nat := env.AUDIO_BUFFER_SIZE / 4

/-- The file-scope variables of `audio.cpp` and the function-local statics
(`last_length`, `last_start`, `last_track_number` of `setup_playback`, `set_pause_buf` of
`audio_poll`). Buffers are byte sequences; `out_len` records which of `out_len_a`,
`out_len_b` the pointer designates. -/
structure AudioState where
  audio_file : FsFile
  out_len_a : Nat
  out_len_b : Nat
  out_len : bufselect
  output_buf_a : List Nat
  output_buf_b : List Nat
  sbufst_a : bufstate
  sbufst_b : bufstate
  sbufsel : bufselect
  audio_idle : Bool
  audio_playing : Bool
  audio_paused : Bool
  fpos : Nat
  fleft : Nat
  gap_length : Nat
  last_track_reached : Bool
  within_gap : Bool
  gap_read : Nat
  current_track : CUETrackInfo
  audio_last_status : audio_status_code
  volume0 : Nat
  volume1 : Nat
  channel : Nat
  audio_stopping : Bool
  last_length : Nat
  last_start : Nat
  last_track_number : Nat
  set_pause_buf : Bool

/-! ## TrackLocator: `setup_playback` -/

/-- The call `audio_parent.isDir() && audio_file.open(&audio_parent, name, O_RDONLY)`:
the handle it leaves when it succeeds. -/
def open_in_parent (env : AudioEnv) (name : String) : FsFile :=
  if env.audio_parent_isDir then
    match env.dir name with
    | some img => some { size := img.size, position := 0, data := img.data }
    | none => none
  else none

/-- Outcome of the `while` loop of `setup_playback`. -/
structure TrackSearch where
  /-- a file could not be opened: the function returns false from inside the loop -/
  open_failed : Bool
  /-- the loop ran to the end of the sheet (`find_track_info == nullptr`) -/
  at_end : Bool
  start : Nat
  track_info : CUETrackInfo
  start_of_next_track : Nat
  file_index : Int
  audio_file : FsFile

/-- The test `find_track_info->file_index != file_index` under `if (!single_bin_file)`. -/
def need_open (env : AudioEnv) (t : CUETrackInfo) (file_index : Int) : Bool :=
  !env.single_bin_file && decide (t.file_index ≠ file_index)

/-- The handle `audio_file` after the file step of one loop iteration. -/
def loop_file (env : AudioEnv) (t : CUETrackInfo) (file_index : Int) (audio_file : FsFile) :
    FsFile :=
  if need_open env t file_index then open_in_parent env t.filename else audio_file

/-- The variable `file_index` after the file step of one loop iteration. -/
def loop_index (env : AudioEnv) (t : CUETrackInfo) (file_index : Int) : Int :=
  if need_open env t file_index then t.file_index else file_index

/-- The `while` loop of `setup_playback` over the descriptors the parser still has to
yield. `start`, `track_info`, `file_index` and `audio_file` are the loop-carried
variables. The size passed to `next_track` only serves the parser and is left out. -/
def track_search (env : AudioEnv) (continued : Bool) (last_track_number : Nat) :
    List CUETrackInfo → Nat → CUETrackInfo → Int → FsFile → TrackSearch
  | [], start, track_info, file_index, audio_file =>
      { open_failed := false, at_end := true, start := start, track_info := track_info,
        start_of_next_track := 0, file_index := file_index, audio_file := audio_file }
  | t :: rest, start, track_info, file_index, audio_file =>
      -- opening the file for getting file size
      if need_open env t file_index && !(loop_file env t file_index audio_file).isOpen then
        { open_failed := true, at_end := false, start := start, track_info := track_info,
          start_of_next_track := 0, file_index := file_index, audio_file := none }
      else if continued && decide (t.track_number < (last_track_number : Int) + 1) then
        -- looking the next track
        track_search env continued last_track_number rest start track_info
          (loop_index env t file_index) (loop_file env t file_index audio_file)
      else
        -- set start to the new track because the last track has finished
        let start1 :=
          if continued && decide (t.track_number = (last_track_number : Int) + 1)
          then t.track_start else start
        if start1 < t.track_start then
          -- start began in the last track, stop looping
          { open_failed := false, at_end := false, start := start1, track_info := track_info,
            start_of_next_track := t.track_start,
            file_index := loop_index env t file_index,
            audio_file := loop_file env t file_index audio_file }
        else
          track_search env continued last_track_number rest start1 t
            (loop_index env t file_index) (loop_file env t file_index audio_file)

/-- The test `size_of_playback <= last_track_byte_length` of `setup_playback`, made when
there are no more tracks: `size` is `audio_file.size()`. -/
def last_file_check (size : Nat) (track_info : CUETrackInfo) (start length : Nat) : Bool :=
  let size_of_playback :=
    u64 (sub32 (u32 (start + length)) track_info.data_start * track_info.sector_length)
  let last_track_byte_length := sub64 size track_info.file_offset
  decide (size_of_playback ≤ last_track_byte_length)

/-- The tail of `setup_playback` from `if (start_of_next_track != 0)` on: `offset` is the
file offset found before it. -/
def setup_remaining (s : AudioState) (track_info : CUETrackInfo)
    (start length start_of_next_track offset : Nat) : Bool × AudioState :=
  if start_of_next_track ≠ 0 then
    -- There is a next track
    if u32 (start + length) < start_of_next_track then
      let fleft :=
        if s.within_gap then
          u32 (u64 (sub32 length track_info.unstored_pregap_length * track_info.sector_length))
        else u32 (u64 (length * track_info.sector_length))
      (true, { s with fleft := fleft, last_track_reached := true,
                      current_track := track_info, fpos := offset })
    else
      let fleft :=
        if s.within_gap then
          u32 (u64 (sub32 start_of_next_track track_info.data_start * track_info.sector_length))
        else u32 (u64 (sub32 start_of_next_track start * track_info.sector_length))
      (true, { s with fleft := fleft, last_track_reached := false,
                      current_track := track_info, fpos := offset })
  else
    if last_file_check s.audio_file.size track_info start length then
      let fleft :=
        if s.within_gap then
          u32 (sub32 length (sub32 track_info.data_start start) * track_info.sector_length)
        else u32 (length * track_info.sector_length)
      (true, { s with fleft := fleft, last_track_reached := true,
                      current_track := track_info, fpos := offset })
    else (false, s)

/-- The part of `setup_playback` that finds the offset within the current audio file
(from `uint64_t offset = track_info.file_offset` on), followed by `setup_remaining`. -/
def setup_offset (s : AudioState) (track_info : CUETrackInfo)
    (start length start_of_next_track : Nat) : Bool × AudioState :=
  let offset := track_info.file_offset
  if start ≥ track_info.data_start then
    -- add to the offset the current playback position
    setup_remaining s track_info start length start_of_next_track
      (u64 (offset + u64 (sub32 start track_info.data_start * track_info.sector_length)))
  else if track_info.unstored_pregap_length ≠ 0 ∧
      start ≥ sub32 track_info.data_start track_info.unstored_pregap_length then
    -- Start is within the pregap position, offset is not increased
    let s1 : AudioState :=
      { s with
        gap_length := u64 (sub32 start track_info.data_start * track_info.sector_length),
        within_gap := true, gap_read := 0 }
    setup_remaining s1 track_info start length start_of_next_track offset
  else
    -- Get data from stored pregap (INDEX 0), which is in the file before file_offset
    let seek_back := u32 (sub32 track_info.data_start start * track_info.sector_length)
    if seek_back > offset then (false, s)
    else setup_remaining s track_info start length start_of_next_track (sub64 offset seek_back)

/-- The function `setup_playback`: the returned flag and the state it leaves. -/
def setup_playback (env : AudioEnv) (s : AudioState) (start length : Nat) (continued : Bool) :
    Bool × AudioState :=
  let s0 : AudioState :=
    if continued then s
    else { s with last_start := start, last_length := length, last_track_number := 0 }
  -- Init globals
  let s1 : AudioState :=
    { s0 with within_gap := false, last_track_reached := false, gap_length := 0, gap_read := 0 }
  let r := track_search env continued s1.last_track_number env.tracks start CUETrackInfo.zero
    (-1) s1.audio_file
  if r.open_failed then (false, { s1 with audio_file := r.audio_file })
  else
  let file2 : FsFile :=
    if env.single_bin_file then r.audio_file else open_in_parent env r.track_info.filename
  let s2 : AudioState := { s1 with audio_file := file2 }
  if !env.single_bin_file && !file2.isOpen then (false, s2)
  else
  -- if the loop completed without breaking
  let s3 : AudioState := if r.at_end then { s2 with last_track_reached := true } else s2
  if r.at_end && decide (r.track_info.track_number = 0) then (false, s3)
  else if env.single_bin_file && !s3.audio_file.isOpen then (false, s3)
  else if r.track_info.track_mode ≠ env.CUETrack_AUDIO then (false, s3)
  else
  -- adjust length for new track
  let length1 :=
    if continued then sub32 s3.last_length (sub32 r.start s3.last_start) else length
  let s4 : AudioState :=
    if continued then { s3 with last_length := length1, last_start := r.start } else s3
  let s5 : AudioState :=
    { s4 with last_track_number := (r.track_info.track_number % 256).toNat }
  setup_offset s5 r.track_info r.start length1 r.start_of_next_track

/-! ## SampleEncoder: `snd_encode` -/

/-- Conversion to `int16_t`. -/
def s16 (x : Int) : Int := (x + 32768) % 65536 - 32768

/-- The `samples` argument of `snd_encode`: a null pointer, the same memory as
`output_buf` (every call of the firmware), or a separate array. -/
inductive SamplePtr where
  | null
  | same
  | separate (samples : List Int)

/-- The read `samples[i]`, given the present contents of `output_buf`. -/
def SamplePtr.read (p : SamplePtr) (output_buf : List Int) (i : Nat) : Int :=
  match p with
  | SamplePtr.null => 0
  | SamplePtr.same => output_buf.getD i 0
  | SamplePtr.separate samples => samples.getD i 0

/-- One iteration of the `for` loop of `snd_encode` at index `i`, on the pair
(`output_buf`, `temp`). -/
def snd_encode_step (vol0 vol1 : Nat) (samples : SamplePtr) (i : Nat)
    (st : List Int × Int) : List Int × Int :=
  match samples with
  | SamplePtr.null => (st.1.set i 0, st.2)
  | _ =>
    if i % 2 = 0 then
      (st.1.set (i + 1) (s16 (Int.tdiv (samples.read st.1 i * (vol0 : Int)) 255)),
        st.1.getD (i + 1) 0)
    else
      (st.1.set (i - 1) (s16 (Int.tdiv (st.2 * (vol1 : Int)) 255)), st.2)

/-- The state of the `for` loop of `snd_encode` after `n` iterations. -/
def snd_encode_loop (vol0 vol1 : Nat) (samples : SamplePtr) (output_buf : List Int) :
    Nat → List Int × Int
  | 0 => (output_buf, 0)
  | n + 1 =>
      snd_encode_step vol0 vol1 samples n (snd_encode_loop vol0 vol1 samples output_buf n)

/-- The function `snd_encode`: the contents of `output_buf` on return. `volume0`,
`volume1` and `channel` are the globals it reads. -/
def snd_encode (env : AudioEnv) (volume0 volume1 channel : Nat) (samples : SamplePtr)
    (output_buf : List Int) (len : Nat) : List Int :=
  let chn := u16 (channel &&& env.AUDIO_CHANNEL_ENABLE_MASK)
  let vol1 := if chn >>> 8 = 0 then 0 else volume1
  let vol0 := if chn &&& 255 = 0 then 0 else volume0
  (snd_encode_loop vol0 vol1 samples output_buf len).1

/-- A byte buffer read as an array of little-endian `int16_t`. -/
def bytes_to_s16 : List Nat → List Int
  | lo :: hi :: rest => s16 ((lo % 256 + 256 * (hi % 256) : Nat) : Int) :: bytes_to_s16 rest
  | _ => []

/-- The bytes of an array of `int16_t` (little-endian). -/
def s16_to_bytes : List Int → List Nat
  | [] => []
  | x :: rest => (x % 256).toNat :: ((x / 256) % 256).toNat :: s16_to_bytes rest

/-- The functions `snd_process_a` and `snd_process_b` on the bytes of their buffer:
`snd_encode` in place over `AUDIO_BUFFER_SIZE/2` samples. -/
def snd_process (env : AudioEnv) (s : AudioState) (buf : List Nat) : List Nat :=
  s16_to_bytes (snd_encode env s.volume0 s.volume1 s.channel SamplePtr.same
      (bytes_to_s16 buf) (u16 (env.AUDIO_BUFFER_SIZE / 2)))
    ++ buf.drop (2 * (buf.length / 2))

/-! ## Buffers and files -/

/-- The call `memset(buf, 0, n)` on a byte array. -/
def memset0 (buf : List Nat) (n : Nat) : List Nat :=
  List.replicate (min n buf.length) 0 ++ buf.drop n

/-- The call `memset(output_buf_x, 0, sizeof(output_buf_x))`: the whole array zeroed. -/
def zero_buf (env : AudioEnv) : List Nat := List.replicate (4 * env.AUDIO_OUT_BUFFER_SIZE) 0

/-- The call `audio_file.seek(pos)`: fails, leaving the cursor, when the handle is closed
or `pos` is past the end of the file. -/
def FsFile.seek (f : FsFile) (pos : Nat) : Bool × FsFile :=
  match f with
  | some o => if pos ≤ o.size then (true, some { o with position := pos }) else (false, f)
  | none => (false, f)

/-- The call `audio_file.read(buf, n)`: the count returned (-1 on a closed handle), the
handle and the buffer afterwards. A read stops at the end of the file. -/
def FsFile.read (f : FsFile) (buf : List Nat) (n : Nat) : Int × FsFile × List Nat :=
  match f with
  | some o =>
      let k := min n (o.size - o.position)
      let bytes := (List.range k).map (fun i => o.data (o.position + i) % 256)
      ((k : Int), some { o with position := o.position + k },
        (bytes ++ buf.drop k).take buf.length)
  | none => (-1, f, buf)

/-! ## PlaybackController -/

/-- The interrupt handler `audio_dma_irq`; `cha` and `chb` are the bits of
`dma_hw->intr` for the two sound channels. The DMA registers are not modelled. -/
def audio_dma_irq (s : AudioState) (cha chb : Bool) : AudioState :=
  if cha then { s with sbufst_a := STALE }
  else if chb then { s with sbufst_b := STALE }
  else s

/-- The function `audio_is_active`. -/
def audio_is_active (s : AudioState) : Bool := !s.audio_idle

/-- The function `audio_is_playing`. -/
def audio_is_playing (s : AudioState) : Bool := s.audio_playing

/-- The function `audio_stop`. The two busy-wait loops on the DMA channels are taken to
terminate, with no interrupt served meanwhile; `audio_stopping` is raised and lowered
again. -/
def audio_stop (env : AudioEnv) (s : AudioState) : AudioState :=
  if s.audio_idle then s
  else
    { s with
      current_track := CUETrackInfo.zero,
      output_buf_a := zero_buf env,
      output_buf_b := zero_buf env,
      audio_stopping := false,
      -- idle the subsystem
      audio_last_status := ASC_COMPLETED,
      audio_paused := false,
      audio_playing := false,
      audio_idle := true }

/-- The part of `audio_poll` from the choice of the buffer to the end. -/
def audio_poll_refill (env : AudioEnv) (s : AudioState) : AudioState :=
  -- are new audio samples needed from the memory card?
  if s.sbufst_a ≠ STALE ∧ s.sbufst_b ≠ STALE then s
  else
  let useA : Bool := decide (s.sbufst_a = STALE)
  let s1 : AudioState :=
    if useA then { s with sbufst_a := FILLING, out_len := A }
    else { s with sbufst_b := FILLING, out_len := B }
  let audiobuf := if useA then s1.output_buf_a else s1.output_buf_b
  let toRead0 := u16 env.AUDIO_BUFFER_SIZE
  let gap_to_read0 := u16 env.AUDIO_BUFFER_SIZE
  let filled : AudioState × List Nat × Nat :=
    if s1.within_gap then
      let gap_to_read := if s1.gap_length < gap_to_read0 then u16 s1.gap_length else gap_to_read0
      let buf := memset0 audiobuf env.AUDIO_BUFFER_SIZE
      let gap_read := u32 (s1.gap_read + gap_to_read)
      if gap_read ≥ s1.gap_length then
        ({ s1 with within_gap := false, gap_read := 0, gap_length := 0 }, buf, gap_to_read)
      else ({ s1 with gap_read := gap_read }, buf, gap_to_read)
    else
      let toRead := if s1.fleft < toRead0 then u16 s1.fleft else toRead0
      let file1 : FsFile :=
        if s1.audio_file.position ≠ s1.fpos then (s1.audio_file.seek s1.fpos).2
        else s1.audio_file
      let rd := file1.read audiobuf toRead
      ({ s1 with audio_file := rd.2.1, fpos := u64 (s1.fpos + toRead),
                 fleft := sub32 s1.fleft toRead }, rd.2.2, toRead)
  let s2 := filled.1
  let s3 : AudioState :=
    if useA then { s2 with output_buf_a := filled.2.1, out_len_a := filled.2.2 }
    else { s2 with output_buf_b := filled.2.1, out_len_b := filled.2.2 }
  if s3.sbufst_a = FILLING then
    { s3 with sbufst_a := READY, output_buf_a := snd_process env s3 s3.output_buf_a }
  else if s3.sbufst_b = FILLING then
    { s3 with sbufst_b := READY, output_buf_b := snd_process env s3 s3.output_buf_b }
  else s3

/-- The function `audio_poll`. -/
def audio_poll (env : AudioEnv) (s : AudioState) : AudioState :=
  if s.audio_idle then s
  else if s.audio_paused then
    if s.set_pause_buf then
      { s with output_buf_a := zero_buf env, output_buf_b := zero_buf env,
               set_pause_buf := false }
    else { s with set_pause_buf := false }
  else
  let s1 : AudioState := { s with set_pause_buf := true }
  if s1.last_track_reached ∧ s1.fleft = 0 ∧ s1.sbufst_a = STALE ∧ s1.sbufst_b = STALE then
    -- out of data and ready to stop
    audio_stop env s1
  else if s1.last_track_reached ∧ s1.fleft = 0 then
    -- out of data to read but still working on remainder
    s1
  else if !s1.audio_file.isOpen then
    -- closed elsewhere, maybe disk ejected?
    audio_stop env s1
  else if s1.fleft = 0 then
    let r := setup_playback env s1 0 0 true
    if !r.1 then audio_stop env r.2
    else audio_poll_refill env r.2
  else audio_poll_refill env s1

/-- The function `audio_play`: the returned flag and the state it leaves. The DMA
programming at its end is not modelled. -/
def audio_play (env : AudioEnv) (s : AudioState) (start length : Nat) (_swap : Bool) :
    Bool × AudioState :=
  -- stop any existing playback first
  let s1 := if !s.audio_idle then audio_stop env s else s
  let r := setup_playback env s1 start length false
  if !r.1 then (false, r.2)
  else if length = 0 then
    (true, { r.2 with audio_last_status := ASC_NO_STATUS, audio_paused := false,
                      audio_playing := false, audio_idle := true })
  else
    let s2 : AudioState :=
      { r.2 with audio_last_status := ASC_PLAYING, audio_paused := false,
                 audio_playing := true, audio_idle := false }
    -- read in initial sample buffers
    if s2.within_gap then
      (true, { s2 with sbufst_a := READY, sbufst_b := READY,
                       output_buf_a := zero_buf env, output_buf_b := zero_buf env })
    else
      let s3 : AudioState := { s2 with sbufst_a := STALE, sbufst_b := STALE, sbufsel := B }
      let s4 := audio_poll env s3
      let s5 : AudioState := { s4 with sbufsel := A }
      (true, audio_poll env s5)

/-- The function `audio_set_paused`: the returned flag and the state it leaves. -/
def audio_set_paused (s : AudioState) (paused : Bool) : Bool × AudioState :=
  if s.audio_idle then (false, s)
  else if s.audio_paused && paused then (false, s)
  else if !s.audio_paused && !paused then (false, s)
  else
    (true, { s with audio_paused := paused,
                    audio_last_status := if paused then ASC_PAUSED else ASC_PLAYING })

/-- The function `audio_get_status_code`: the returned code and the state it leaves. -/
def audio_get_status_code (s : AudioState) : audio_status_code × AudioState :=
  let tmp := s.audio_last_status
  if tmp = ASC_COMPLETED ∨ tmp = ASC_ERRORED then
    (tmp, { s with audio_last_status := ASC_NO_STATUS })
  else (tmp, s)

/-- The function `audio_get_volume`. -/
def audio_get_volume (s : AudioState) : Nat := u16 (s.volume0 ||| (s.volume1 <<< 8))

/-- The function `audio_set_volume`. -/
def audio_set_volume (s : AudioState) (lvol rvol : Nat) : AudioState :=
  { s with volume0 := u8 lvol, volume1 := u8 rvol }

/-- The function `audio_get_channel`. -/
def audio_get_channel (s : AudioState) : Nat := s.channel

/-- The function `audio_set_channel`. -/
def audio_set_channel (s : AudioState) (chn : Nat) : AudioState :=
  { s with channel := u16 chn }

/-- The function `audio_get_lba_position`. The division is by `sector_length`, which the
caller has to keep non-zero (a division by zero yields 0 here). -/
def audio_get_lba_position (s : AudioState) : Nat :=
  if audio_is_active s && decide (s.current_track.track_number ≠ 0) && s.audio_file.isOpen then
    u32 (s.current_track.data_start +
      sub64 s.audio_file.position s.current_track.file_offset / s.current_track.sector_length)
  else 0

/-! ## Vocabulary of the statements -/

/-- The backing files of the sheet can be opened: the single image is open, or the bound
handle is a directory that holds the file of every track. -/
def FilesAvailable (env : AudioEnv) (s : AudioState) : Prop :=
  (env.single_bin_file = true ∧ s.audio_file.isOpen = true) ∨
  (env.single_bin_file = false ∧ env.audio_parent_isDir = true ∧
    ∀ t ∈ env.tracks, (env.dir t.filename).isSome = true)

/-- Size of the backing file of track `t`: the single image, or the file of the bound
directory that the track names. -/
def backing_size (env : AudioEnv) (s : AudioState) (t : CUETrackInfo) : Nat :=
  if env.single_bin_file then s.audio_file.size else (open_in_parent env t.filename).size

/-- The sector at which the first descriptor of `rest` starts (0 when there is none): the
value of `start_of_next_track` when the search stops in front of `rest`. -/
def next_start (rest : List CUETrackInfo) : Nat :=
  match rest with
  | [] => 0
  | n :: _ => n.track_start

/-- The state in which `setup_playback(start, length, false)` reaches the offset
computation once it has found the track `t`: the request is recorded, the gap variables
are reset, and `at_end` tells whether the sheet was read to its end. -/
def after_search (env : AudioEnv) (s : AudioState) (start length : Nat) (t : CUETrackInfo)
    (at_end : Bool) : AudioState :=
  { s with
    last_start := start, last_length := length,
    last_track_number := (t.track_number % 256).toNat,
    within_gap := false, last_track_reached := at_end, gap_length := 0, gap_read := 0,
    audio_file := if env.single_bin_file then s.audio_file else open_in_parent env t.filename }

/-- The descriptor `t` is the active track of a request starting at `start`, and `rest` are
the descriptors that follow it in the sheet: every descriptor up to `t` starts at or before
`start`, and the one after `t`, when there is one, starts after `start`. -/
def ActiveTrack (env : AudioEnv) (start : Nat) (t : CUETrackInfo) (rest : List CUETrackInfo) :
    Prop :=
  ∃ pre, env.tracks = pre ++ t :: rest ∧ (∀ u ∈ pre, u.track_start ≤ start) ∧
    t.track_start ≤ start ∧ ∀ n tl, rest = n :: tl → start < n.track_start

/-- A request of 32-bit `start` and `length` on a playable active track `t`: the backing
files can be opened (the single image holds less than 2^64 bytes), the track is an audio
track and carries a track number (0 is the number of the empty descriptor). -/
def PlayableRequest (env : AudioEnv) (s : AudioState) (start length : Nat) (t : CUETrackInfo)
    (rest : List CUETrackInfo) : Prop :=
  start < 4294967296 ∧ length < 4294967296 ∧ ActiveTrack env start t rest ∧
  FilesAvailable env s ∧ backing_size env s t < 18446744073709551616 ∧
  t.track_mode = env.CUETrack_AUDIO ∧ t.track_number ≠ 0

/-- The range of the request ends before the next track starts or, on the last track of the
sheet, lies in the backing file. -/
def EndsInTrack (env : AudioEnv) (s : AudioState) (start length : Nat) (t : CUETrackInfo)
    (rest : List CUETrackInfo) : Prop :=
  match rest with
  | [] => t.file_offset + (start + length - t.data_start) * t.sector_length ≤ backing_size env s t
  | n :: _ => start + length ≤ n.track_start

/-- One buffer period: the DMA interrupt with the pending bits `irq`, then the poll
routine. -/
def irq_then_poll (env : AudioEnv) (s : AudioState) (irq : Bool × Bool) : AudioState :=
  audio_poll env (audio_dma_irq s irq.1 irq.2)

/-- The state after the buffer periods whose interrupt bits are listed in `irqs`. -/
def poll_rounds (env : AudioEnv) : List (Bool × Bool) → AudioState → AudioState
  | [], s => s
  | irq :: rest, s => poll_rounds env rest (irq_then_poll env s irq)

/-- A playing session inside a gap whose recorded length is not a 32-bit value. -/
def GapStuck (s : AudioState) : Prop :=
  s.audio_idle = false ∧ s.audio_paused = false ∧ s.within_gap = true ∧
  4294967296 ≤ s.gap_length ∧ s.fleft ≠ 0 ∧ s.audio_file.isOpen = true

/-- Two states agree on the controller flags and the status code. -/
def SameController (a b : AudioState) : Prop :=
  a.audio_idle = b.audio_idle ∧ a.audio_playing = b.audio_playing ∧
  a.audio_paused = b.audio_paused ∧ a.audio_last_status = b.audio_last_status

/-- The three states of the controller: idle (status not playing and not paused), playing,
paused. -/
def ControllerState (s : AudioState) : Prop :=
  (s.audio_idle = true ∧ s.audio_playing = false ∧ s.audio_paused = false ∧
    s.audio_last_status ≠ ASC_PLAYING ∧ s.audio_last_status ≠ ASC_PAUSED) ∨
  (s.audio_idle = false ∧ s.audio_playing = true ∧ s.audio_paused = false ∧
    s.audio_last_status = ASC_PLAYING) ∨
  (s.audio_idle = false ∧ s.audio_playing = true ∧ s.audio_paused = true ∧
    s.audio_last_status = ASC_PAUSED)

/-- The state in which `audio_play` calls `setup_playback`: an existing playback has been
stopped. -/
def stopped_first (env : AudioEnv) (s : AudioState) : AudioState :=
  if !s.audio_idle then audio_stop env s else s

/-- The calls other than `audio_play` that reach the controller. -/
inductive ControlOp where
  | stop
  | set_paused (paused : Bool)
  | poll
  | irq (cha chb : Bool)
  | get_status

/-- The state after one call. -/
def run_op (env : AudioEnv) (s : AudioState) : ControlOp → AudioState
  | ControlOp.stop => audio_stop env s
  | ControlOp.set_paused p => (audio_set_paused s p).2
  | ControlOp.poll => audio_poll env s
  | ControlOp.irq cha chb => audio_dma_irq s cha chb
  | ControlOp.get_status => (audio_get_status_code s).2

/-- The state after a sequence of calls. -/
def run_ops (env : AudioEnv) (ops : List ControlOp) (s : AudioState) : AudioState :=
  ops.foldl (run_op env) s

/-! ## Concrete sheets and states -/

/-- Track 1 of the two-track disc of the specification: sectors 0 to 99, no pregap. -/
def cd2_track1 : CUETrackInfo :=
  { filename := "cd.bin", file_index := 0, file_offset := 0, track_number := 1,
    track_mode := 0, sector_length := 2352, unstored_pregap_length := 0, data_start := 0,
    track_start := 0 }

/-- Track 2 of the two-track disc of the specification: sectors 100 to 199, no pregap. -/
def cd2_track2 : CUETrackInfo :=
  { filename := "cd.bin", file_index := 0, file_offset := 235200, track_number := 2,
    track_mode := 0, sector_length := 2352, unstored_pregap_length := 0, data_start := 100,
    track_start := 100 }

/-- The binding of a single image file with the two tracks. -/
def cd2_env : AudioEnv :=
  { AUDIO_BUFFER_SIZE := 8192, AUDIO_CHANNEL_ENABLE_MASK := 513, CUETrack_AUDIO := 0,
    tracks := [cd2_track1, cd2_track2], single_bin_file := true, audio_parent_isDir := false,
    dir := fun _ => none }

/-- The variables of `audio.cpp` as initialised at start-up, with the image `img` open; the
default volume and channel mask, constants of a header outside the sources, are taken as
full volume and both channels. -/
def initial_state (img : FileImage) : AudioState :=
  { audio_file := some { size := img.size, position := 0, data := img.data },
    out_len_a := 2048, out_len_b := 2048, out_len := A,
    output_buf_a := List.replicate 8192 0, output_buf_b := List.replicate 8192 0,
    sbufst_a := STALE, sbufst_b := STALE, sbufsel := A,
    audio_idle := true, audio_playing := false, audio_paused := false,
    fpos := 0, fleft := 0, gap_length := 0, last_track_reached := false, within_gap := false,
    gap_read := 0, current_track := CUETrackInfo.zero, audio_last_status := ASC_NO_STATUS,
    volume0 := 255, volume1 := 255, channel := 513, audio_stopping := false,
    last_length := 0, last_start := 0, last_track_number := 0, set_pause_buf := true }

/-- A single audio track with an unstored pregap of 150 sectors (sectors 0 to 149) and
100 sectors of data (sectors 150 to 249) at the start of its file. -/
def pregap_track : CUETrackInfo :=
  { filename := "cd.bin", file_index := 0, file_offset := 0, track_number := 1,
    track_mode := 0, sector_length := 2352, unstored_pregap_length := 150, data_start := 150,
    track_start := 0 }

/-- The binding of a single image file with the pregap track. -/
def pregap_env : AudioEnv :=
  { AUDIO_BUFFER_SIZE := 8192, AUDIO_CHANNEL_ENABLE_MASK := 513, CUETrack_AUDIO := 0,
    tracks := [pregap_track], single_bin_file := true, audio_parent_isDir := false,
    dir := fun _ => none }

/-- The start-up state with the image of the pregap disc (100 sectors). -/
def pregap_state : AudioState := initial_state { size := 235200, data := fun _ => 0 }

/-- A single audio track with a stored pregap of 150 sectors: the file holds the pregap
(sectors 0 to 149) and 100 sectors of data from byte 352800. -/
def stored_track : CUETrackInfo :=
  { filename := "cd.bin", file_index := 0, file_offset := 352800, track_number := 1,
    track_mode := 0, sector_length := 2352, unstored_pregap_length := 0, data_start := 150,
    track_start := 0 }

/-- The binding of a single image file with the stored-pregap track. -/
def stored_env : AudioEnv :=
  { AUDIO_BUFFER_SIZE := 8192, AUDIO_CHANNEL_ENABLE_MASK := 513, CUETrack_AUDIO := 0,
    tracks := [stored_track], single_bin_file := true, audio_parent_isDir := false,
    dir := fun _ => none }

/-- The start-up state with the image of the stored-pregap disc (250 sectors). -/
def stored_state : AudioState := initial_state { size := 588000, data := fun _ => 0 }

/-- A data track (a track mode other than audio), sectors 0 to 99. -/
def data_track : CUETrackInfo :=
  { filename := "cd.bin", file_index := 0, file_offset := 0, track_number := 1,
    track_mode := 3, sector_length := 2352, unstored_pregap_length := 0, data_start := 0,
    track_start := 0 }

/-- The binding of a mixed-mode disc: a data track, then the audio track 100-199. -/
def mixed_env : AudioEnv :=
  { AUDIO_BUFFER_SIZE := 8192, AUDIO_CHANNEL_ENABLE_MASK := 513, CUETrack_AUDIO := 0,
    tracks := [data_track, cd2_track2], single_bin_file := true, audio_parent_isDir := false,
    dir := fun _ => none }

/-- The start-up state with the image of the two-track disc (200 sectors of silence). -/
def cd2_state : AudioState := initial_state { size := 470400, data := fun _ => 0 }

/-- A second track that starts at sector 4000000. -/
def long_track2 : CUETrackInfo :=
  { filename := "cd.bin", file_index := 0, file_offset := 9408000000, track_number := 2,
    track_mode := 0, sector_length := 2352, unstored_pregap_length := 0,
    data_start := 4000000, track_start := 4000000 }

/-- A sheet whose first track is 4000000 sectors long. -/
def long_env : AudioEnv :=
  { AUDIO_BUFFER_SIZE := 8192, AUDIO_CHANNEL_ENABLE_MASK := 513, CUETrack_AUDIO := 0,
    tracks := [cd2_track1, long_track2], single_bin_file := true, audio_parent_isDir := false,
    dir := fun _ => none }

/-- The start-up state with an image of 4000100 sectors. -/
def long_state : AudioState := initial_state { size := 9408235200, data := fun _ => 0 }

/-- The value `(int16_t)(x * vol / 255)` that `snd_encode` stores for the sample `x`. -/
def scaled (vol : Nat) (x : Int) : Int := s16 (Int.tdiv (x * (vol : Int)) 255)

/-- The frames of a buffer after the encoder has run over them: the two scaled samples of
every frame, in swapped positions. -/
def swapped_frames (vol0 vol1 : Nat) : List Int → List Int
  | l :: r :: rest => scaled vol1 r :: scaled vol0 l :: swapped_frames vol0 vol1 rest
  | rest => rest

/-- A value of type `int16_t`. -/
def IsInt16 (x : Int) : Prop := -32768 ≤ x ∧ x ≤ 32767

/-- The left volume `vol[0]` that `snd_encode` applies: 0 when the low byte of the masked
channel word is 0. -/
def left_volume (env : AudioEnv) (volume0 channel : Nat) : Nat :=
  if u16 (channel &&& env.AUDIO_CHANNEL_ENABLE_MASK) &&& 255 = 0 then 0 else volume0

/-- The right volume `vol[1]` that `snd_encode` applies: 0 when the high byte of the masked
channel word is 0. -/
def right_volume (env : AudioEnv) (volume1 channel : Nat) : Nat :=
  if u16 (channel &&& env.AUDIO_CHANNEL_ENABLE_MASK) >>> 8 = 0 then 0 else volume1

/-- The position of the other sample of the stereo frame of sample `i`. -/
def partner (i : Nat) : Nat := if i % 2 = 0 then i + 1 else i - 1

/-- Both channels are enabled in the masked channel word. -/
def BothChannels (env : AudioEnv) (channel : Nat) : Prop :=
  u16 (channel &&& env.AUDIO_CHANNEL_ENABLE_MASK) >>> 8 ≠ 0 ∧
  u16 (channel &&& env.AUDIO_CHANNEL_ENABLE_MASK) &&& 255 ≠ 0

/-- The value `chn = channel & AUDIO_CHANNEL_ENABLE_MASK` that `snd_encode` computes from
the channel word of state `s`. -/
def masked_channel (env : AudioEnv) (s : AudioState) : Nat :=
  u16 (s.channel &&& env.AUDIO_CHANNEL_ENABLE_MASK)

/-- The state in which `audio_poll` reaches the choice of the buffer to refill, or `none`
when it returns before: the controller is idle or paused, the session is out of data on its
last track, the file is closed, or the continuation into the next track fails. -/
def refill_entry (env : AudioEnv) (s : AudioState) : Option AudioState :=
  if s.audio_idle then none
  else if s.audio_paused then none
  else
  let s1 : AudioState := { s with set_pause_buf := true }
  if s1.last_track_reached ∧ s1.fleft = 0 then none
  else if !s1.audio_file.isOpen then none
  else if s1.fleft = 0 then
    let r := setup_playback env s1 0 0 true
    if !r.1 then none else some r.2
  else some s1

/-- The count `toRead` of a refill from the file: `AUDIO_BUFFER_SIZE` as a `uint16_t`,
or `fleft` when that is less. -/
def refill_count (env : AudioEnv) (s : AudioState) : Nat :=
  if s.fleft < u16 env.AUDIO_BUFFER_SIZE then u16 s.fleft else u16 env.AUDIO_BUFFER_SIZE

/-- The filling of the chosen buffer in `audio_poll` (from `platform_set_sd_callback` to the
end of the `if (within_gap)` statement) in state `s1`: the state, the buffer and the length
recorded through `out_len`. -/
def fill_buffer (env : AudioEnv) (s1 : AudioState) (audiobuf : List Nat) :
    AudioState × List Nat × Nat :=
  if s1.within_gap then
    let gap_to_read :=
      if s1.gap_length < u16 env.AUDIO_BUFFER_SIZE then u16 s1.gap_length
      else u16 env.AUDIO_BUFFER_SIZE
    let buf := memset0 audiobuf env.AUDIO_BUFFER_SIZE
    let gap_read := u32 (s1.gap_read + gap_to_read)
    if gap_read ≥ s1.gap_length then
      ({ s1 with within_gap := false, gap_read := 0, gap_length := 0 }, buf, gap_to_read)
    else ({ s1 with gap_read := gap_read }, buf, gap_to_read)
  else
    let toRead :=
      if s1.fleft < u16 env.AUDIO_BUFFER_SIZE then u16 s1.fleft else u16 env.AUDIO_BUFFER_SIZE
    let file1 : FsFile :=
      if s1.audio_file.position ≠ s1.fpos then (s1.audio_file.seek s1.fpos).2
      else s1.audio_file
    let rd := file1.read audiobuf toRead
    ({ s1 with audio_file := rd.2.1, fpos := u64 (s1.fpos + toRead),
               fleft := sub32 s1.fleft toRead }, rd.2.2, toRead)

/-- The end of `audio_poll`: the buffer that is in state FILLING is encoded and becomes
READY. -/
def finish_buffer (env : AudioEnv) (s3 : AudioState) : AudioState :=
  if s3.sbufst_a = FILLING then
    { s3 with sbufst_a := READY, output_buf_a := snd_process env s3 s3.output_buf_a }
  else if s3.sbufst_b = FILLING then
    { s3 with sbufst_b := READY, output_buf_b := snd_process env s3 s3.output_buf_b }
  else s3

/-- The refill of buffer A: the state before the end of `audio_poll`. -/
def filled_A (env : AudioEnv) (s : AudioState) : AudioState :=
  { (fill_buffer env { s with sbufst_a := FILLING, out_len := A } s.output_buf_a).1 with
    output_buf_a :=
      (fill_buffer env { s with sbufst_a := FILLING, out_len := A } s.output_buf_a).2.1,
    out_len_a :=
      (fill_buffer env { s with sbufst_a := FILLING, out_len := A } s.output_buf_a).2.2 }

/-- The refill of buffer B: the state before the end of `audio_poll`. -/
def filled_B (env : AudioEnv) (s : AudioState) : AudioState :=
  { (fill_buffer env { s with sbufst_b := FILLING, out_len := B } s.output_buf_b).1 with
    output_buf_b :=
      (fill_buffer env { s with sbufst_b := FILLING, out_len := B } s.output_buf_b).2.1,
    out_len_b :=
      (fill_buffer env { s with sbufst_b := FILLING, out_len := B } s.output_buf_b).2.2 }

/-- Two states agree on the buffers: states, contents and recorded lengths. -/
def SameBuffers (a b : AudioState) : Prop :=
  a.sbufst_a = b.sbufst_a ∧ a.sbufst_b = b.sbufst_b ∧
  a.output_buf_a = b.output_buf_a ∧ a.output_buf_b = b.output_buf_b ∧
  a.out_len_a = b.out_len_a ∧ a.out_len_b = b.out_len_b

/-- The session that Play(start, length) starts on state `s`, after the DMA interrupt of
channel A has freed buffer A. -/
def session_after_irq (env : AudioEnv) (s : AudioState) (start length : Nat) : AudioState :=
  audio_dma_irq (audio_play env s start length false).2 true false

/-- The refill from the file in state `e` meets an I/O failure: the seek to `fpos` that a
drifted read cursor requires fails, or the read returns another count than the `toRead`
bytes requested. -/
def refill_io_failed (env : AudioEnv) (e : AudioState) : Prop :=
  (e.audio_file.position ≠ e.fpos ∧ (e.audio_file.seek e.fpos).1 = false) ∨
  ((if e.audio_file.position ≠ e.fpos then (e.audio_file.seek e.fpos).2
      else e.audio_file).read
    (if e.sbufst_a = STALE then e.output_buf_a else e.output_buf_b)
    (refill_count env e)).1 ≠ (refill_count env e : Int)

/-- The start-up state with an image of the two-track disc cut off after 25000 bytes. -/
def short_state : AudioState := initial_state { size := 25000, data := fun _ => 0 }

/-- The part of `audio_play` that starts the session once `setup_playback` has succeeded
with a length other than 0, in the state `x` that `setup_playback` left. -/
def start_session (env : AudioEnv) (x : AudioState) : AudioState :=
  let s2 : AudioState :=
    { x with audio_last_status := ASC_PLAYING, audio_paused := false,
             audio_playing := true, audio_idle := false }
  if s2.within_gap then
    { s2 with sbufst_a := READY, sbufst_b := READY,
              output_buf_a := zero_buf env, output_buf_b := zero_buf env }
  else
    let s3 : AudioState := { s2 with sbufst_a := STALE, sbufst_b := STALE, sbufsel := B }
    let s4 := audio_poll env s3
    let s5 : AudioState := { s4 with sbufsel := A }
    audio_poll env s5

/-- The session as `setup_playback(start, length, false)` positions it: the state the call
leaves, marked active, with the read position of the backing file moved to `fpos`. -/
def positioned_session (env : AudioEnv) (s : AudioState) (start length : Nat) : AudioState :=
  let x := (setup_playback env s start length false).2
  { x with audio_idle := false, audio_playing := true,
           audio_file := (x.audio_file.seek x.fpos).2 }

/-- The second track of the disc with an unstored pregap: sectors 250 to 349, stored after
the 100 data sectors of track 1. -/
def gap2_track2 : CUETrackInfo :=
  { filename := "cd.bin", file_index := 0, file_offset := 235200, track_number := 2,
    track_mode := 0, sector_length := 2352, unstored_pregap_length := 0, data_start := 250,
    track_start := 250 }

/-- The binding of a single image file with two audio tracks, the first with an unstored
pregap of 150 sectors (sectors 0 to 149) and 100 sectors of data (sectors 150 to 249). -/
def gap2_env : AudioEnv :=
  { AUDIO_BUFFER_SIZE := 8192, AUDIO_CHANNEL_ENABLE_MASK := 513, CUETrack_AUDIO := 0,
    tracks := [pregap_track, gap2_track2], single_bin_file := true,
    audio_parent_isDir := false, dir := fun _ => none }

/-- The start-up state with the image of the two-track pregap disc (200 sectors). -/
def gap2_state : AudioState := initial_state { size := 470400, data := fun _ => 0 }

/-- The test of `setup_playback` for a start inside the unstored pregap of the track. -/
def in_unstored_pregap (t : CUETrackInfo) (start : Nat) : Bool :=
  decide (start < t.data_start) &&
  (decide (t.unstored_pregap_length ≠ 0) &&
    decide (sub32 t.data_start t.unstored_pregap_length ≤ start))

/-- The session of the two-track disc started by Play(10, 1), paused, polled while paused and
resumed: the 2352 bytes of the request are in buffer A, the session is out of data on its
last track, and the poll made while paused has cleared `set_pause_buf`. -/
def drained_session : AudioState :=
  (audio_set_paused
    (audio_poll cd2_env
      (audio_set_paused (audio_play cd2_env cd2_state 10 1 false).2 true).2) false).2

/-- The controller flags and the status code agree: `audio_playing` is the negation of
`audio_idle`, a paused controller is active, an idle controller has status no-status or
completed, an active one has status paused or playing according to `audio_paused`. -/
def FlagsAgree (s : AudioState) : Prop :=
  s.audio_playing = (!s.audio_idle) ∧
  (s.audio_paused = true → s.audio_idle = false) ∧
  (s.audio_idle = true →
    s.audio_last_status = ASC_NO_STATUS ∨ s.audio_last_status = ASC_COMPLETED) ∧
  (s.audio_idle = false → s.audio_paused = true → s.audio_last_status = ASC_PAUSED) ∧
  (s.audio_idle = false → s.audio_paused = false → s.audio_last_status = ASC_PLAYING)

/-- The controller flags and the status code as the static initialisers of `audio.cpp`
leave them. -/
def StartUpFlags (s : AudioState) : Prop :=
  s.audio_idle = true ∧ s.audio_playing = false ∧ s.audio_paused = false ∧
  s.audio_last_status = ASC_NO_STATUS

/-- The flags of a controller that `audio_stop` has just idled. -/
def JustStopped (s : AudioState) : Prop :=
  s.audio_idle = true ∧ s.audio_playing = false ∧ s.audio_paused = false ∧
  s.audio_last_status = ASC_COMPLETED

/-- The calls that reach the controller, `audio_play` included, and the DMA interrupt. -/
inductive ApiCall where
  | play (start length : Nat) (swap : Bool)
  | set_paused (paused : Bool)
  | stop
  | poll
  | irq (cha chb : Bool)
  | get_status

/-- The state after one call. -/
def run_call (env : AudioEnv) (s : AudioState) : ApiCall → AudioState
  | ApiCall.play start length swap => (audio_play env s start length swap).2
  | ApiCall.set_paused p => (audio_set_paused s p).2
  | ApiCall.stop => audio_stop env s
  | ApiCall.poll => audio_poll env s
  | ApiCall.irq cha chb => audio_dma_irq s cha chb
  | ApiCall.get_status => (audio_get_status_code s).2

/-- The state after a sequence of calls. -/
def run_calls (env : AudioEnv) (calls : List ApiCall) (s : AudioState) : AudioState :=
  calls.foldl (run_call env) s

/-- The value that `audio_file.read(audiobuf, toRead)` returns in a refill from the file in
state `e` (the state when the buffer is chosen): the count of bytes read, after the seek to
`fpos` that a drifted read cursor requires. -/
def refill_read_count (env : AudioEnv) (e : AudioState) : Int :=
  ((if e.audio_file.position ≠ e.fpos then (e.audio_file.seek e.fpos).2
      else e.audio_file).read
    (if e.sbufst_a = STALE then e.output_buf_a else e.output_buf_b)
    (refill_count env e)).1

/-- The state in which the poll of the cut-off session chooses its buffer. -/
def short_entry : AudioState :=
  { session_after_irq cd2_env short_state 10 80 with set_pause_buf := true }

/-! ## Theorems -/

set_option linter.unreachableTactic false
set_option linter.unusedTactic false

theorem u32_of_lt {n : Nat} (h : n < 4294967296) : u32 n = n := by
  unfold u32; omega

theorem u64_of_lt {n : Nat} (h : n < 18446744073709551616) : u64 n = n := by
  unfold u64; omega

theorem u64_le (n : Nat) : u64 n ≤ n := by
  unfold u64; omega

theorem sub32_of_le {a b : Nat} (h : b ≤ a) (ha : a < 4294967296) : sub32 a b = a - b := by
  unfold sub32; omega

theorem sub64_of_le {a b : Nat} (h : b ≤ a) (ha : a < 18446744073709551616) :
    sub64 a b = a - b := by
  unfold sub64; omega


theorem no_open_failure (env : AudioEnv) (s : AudioState) (hf : FilesAvailable env s)
    (t : CUETrackInfo) (ht : t ∈ env.tracks) (fi : Int) (af : FsFile) :
    (need_open env t fi && !(loop_file env t fi af).isOpen) = false := by
  rcases hf with ⟨h1, _⟩ | ⟨h1, h2, h3⟩
  · simp [need_open, h1]
  · have := h3 t ht
    by_cases hn : need_open env t fi = true
    · simp only [loop_file, hn, if_true, open_in_parent, h2]
      cases hd : env.dir t.filename with
      | none => simp [hd] at this
      | some img => simp [FsFile.isOpen]
    · simp at hn; simp [hn]

theorem track_search_single_file (env : AudioEnv) (c : Bool) (l : Nat)
    (h1 : env.single_bin_file = true) (ts : List CUETrackInfo) :
    ∀ (start : Nat) (ti : CUETrackInfo) (fi : Int) (af : FsFile),
      (track_search env c l ts start ti fi af).audio_file = af ∧
      (track_search env c l ts start ti fi af).open_failed = false := by
  induction ts with
  | nil => intro start ti fi af; simp [track_search]
  | cons t rest ih =>
    intro start ti fi af
    have hn : ∀ fi, need_open env t fi = false := by intro fi; simp [need_open, h1]
    have hl : ∀ fi af, loop_file env t fi af = af := by intro fi af; simp [loop_file, hn]
    simp only [track_search, hn, hl, Bool.false_and]
    repeat' split
    all_goals first | exact ih _ _ _ _ | simp_all

theorem track_search_first (env : AudioEnv) (s : AudioState) (hf : FilesAvailable env s)
    (l start : Nat) (t : CUETrackInfo) (rest : List CUETrackInfo) :
    ∀ (pre : List CUETrackInfo) (ti : CUETrackInfo) (fi : Int) (af : FsFile),
      (∀ u ∈ pre ++ t :: rest, u ∈ env.tracks) →
      (∀ u ∈ pre, u.track_start ≤ start) → t.track_start ≤ start →
      (∀ n tl, rest = n :: tl → start < n.track_start) →
      (track_search env false l (pre ++ t :: rest) start ti fi af).open_failed = false ∧
      (track_search env false l (pre ++ t :: rest) start ti fi af).start = start ∧
      (track_search env false l (pre ++ t :: rest) start ti fi af).track_info = t ∧
      (track_search env false l (pre ++ t :: rest) start ti fi af).at_end = rest.isEmpty ∧
      (track_search env false l (pre ++ t :: rest) start ti fi af).start_of_next_track =
        next_start rest := by
  intro pre
  induction pre with
  | nil =>
    intro ti fi af hmem _ ht hnext
    have h0 := no_open_failure env s hf t (hmem t (by simp)) fi af
    cases rest with
    | nil =>
      simp [track_search, h0, Nat.not_lt.mpr ht, next_start]
    | cons n tl =>
      have hn := hnext n tl rfl
      have h1 := no_open_failure env s hf n (hmem n (by simp)) (loop_index env t fi)
        (loop_file env t fi af)
      simp [track_search, h0, h1, Nat.not_lt.mpr ht, hn, next_start]
  | cons u pre ih =>
    intro ti fi af hmem hpre ht hnext
    have h0 := no_open_failure env s hf u (hmem u (by simp)) fi af
    have hu : ¬ start < u.track_start := Nat.not_lt.mpr (hpre u (by simp))
    have := ih u (loop_index env u fi) (loop_file env u fi af)
      (fun v hv => hmem v (by simp at hv ⊢; tauto))
      (fun v hv => hpre v (by simp [hv])) ht hnext
    simpa [track_search, h0, hu] using this

theorem setup_playback_first_eq (env : AudioEnv) (s : AudioState) (start length : Nat)
    (pre : List CUETrackInfo) (t : CUETrackInfo) (rest : List CUETrackInfo)
    (hf : FilesAvailable env s)
    (htracks : env.tracks = pre ++ t :: rest)
    (hpre : ∀ u ∈ pre, u.track_start ≤ start) (ht : t.track_start ≤ start)
    (hnext : ∀ n tl, rest = n :: tl → start < n.track_start)
    (haudio : t.track_mode = env.CUETrack_AUDIO)
    (hnum : t.track_number ≠ 0) :
    setup_playback env s start length false =
      setup_offset (after_search env s start length t rest.isEmpty) t start length
        (next_start rest) := by
  have hs := track_search_first env s hf 0 start t rest pre CUETrackInfo.zero (-1) s.audio_file
    (by intro u hu; rw [htracks]; exact hu) hpre ht hnext
  rw [← htracks] at hs
  obtain ⟨h1, h2, h3, h4, h5⟩ := hs
  have hfile : (if env.single_bin_file then
      (track_search env false 0 env.tracks start CUETrackInfo.zero (-1) s.audio_file).audio_file
      else open_in_parent env t.filename) =
      (if env.single_bin_file then s.audio_file else open_in_parent env t.filename) := by
    by_cases hb : env.single_bin_file = true
    · simp [hb, (track_search_single_file env false 0 hb env.tracks _ _ _ _).1]
    · simp [hb]
  have hopen : (!env.single_bin_file &&
      !(if env.single_bin_file then s.audio_file else open_in_parent env t.filename).isOpen)
      = false := by
    rcases hf with ⟨hb, _⟩ | ⟨hb, hd, hall⟩
    · simp [hb]
    · have := hall t (by rw [htracks]; simp)
      cases hdir : env.dir t.filename with
      | none => simp [hdir] at this
      | some img => simp [hb, open_in_parent, hd, hdir, FsFile.isOpen]
  have hopen2 : (env.single_bin_file && !s.audio_file.isOpen) = false := by
    rcases hf with ⟨hb, ho⟩ | ⟨hb, _⟩
    · simp [ho]
    · simp [hb]
  unfold setup_playback
  simp only [Bool.false_eq_true, if_false, h1, h2, h3, h4, h5, hfile, hopen, hopen2]
  rcases hf with ⟨hb, ho⟩ | ⟨hb, hd, hall⟩
  · cases rest <;> simp [hb, ho, hnum, haudio, after_search]
  · cases rest <;> simp [hb, hnum, haudio, after_search]

theorem setup_offset_statics (s : AudioState) (t : CUETrackInfo) (a b c : Nat) :
    (setup_offset s t a b c).2.last_start = s.last_start ∧
    (setup_offset s t a b c).2.last_length = s.last_length ∧
    (setup_offset s t a b c).2.last_track_number = s.last_track_number ∧
    (setup_offset s t a b c).2.audio_file = s.audio_file := by
  unfold setup_offset setup_remaining
  dsimp only
  split_ifs <;> exact ⟨rfl, rfl, rfl, rfl⟩

/-- An in-track request that ends before the next track, or inside the file on the last
track: what the offset computation leaves. -/
theorem setup_offset_in_track (s : AudioState) (t : CUETrackInfo) (start length size : Nat)
    (rest : List CUETrackInfo)
    (hwg : s.within_gap = false) (hs32 : start < 4294967296) (hdata : t.data_start ≤ start)
    (hsz : s.audio_file.size = size) (hsize : size < 18446744073709551616)
    (hnext : ∀ n tl, rest = n :: tl → start < n.track_start)
    (hend : match rest with
      | [] => t.file_offset + (start + length - t.data_start) * t.sector_length ≤ size
      | n :: _ => start + length ≤ n.track_start)
    (hfleft : length * t.sector_length < 4294967296)
    (hfpos : t.file_offset + (start - t.data_start) * t.sector_length < 18446744073709551616) :
    (setup_offset s t start length (next_start rest)).1 = true ∧
    (setup_offset s t start length (next_start rest)).2.fpos =
      t.file_offset + (start - t.data_start) * t.sector_length ∧
    (setup_offset s t start length (next_start rest)).2.fleft = length * t.sector_length := by
  have hsub : sub32 start t.data_start = start - t.data_start := sub32_of_le hdata hs32
  have hX : u64 ((start - t.data_start) * t.sector_length) =
      (start - t.data_start) * t.sector_length := u64_of_lt (by omega)
  have hL : u32 (length * t.sector_length) = length * t.sector_length := u32_of_lt hfleft
  have hL64 : u64 (length * t.sector_length) = length * t.sector_length :=
    u64_of_lt (by omega)
  unfold setup_offset
  simp only [ge_iff_le, hdata, if_true, hsub, hX, u64_of_lt hfpos]
  cases rest with
  | nil =>
    simp only at hend
    have hle : sub32 (u32 (start + length)) t.data_start * t.sector_length ≤
        (start + length - t.data_start) * t.sector_length :=
      Nat.mul_le_mul_right _ (by unfold sub32 u32; omega)
    have hchk : last_file_check s.audio_file.size t start length = true := by
      rw [hsz]
      simp only [last_file_check, decide_eq_true_eq]
      have h1 := u64_le (sub32 (u32 (start + length)) t.data_start * t.sector_length)
      have h2 : sub64 size t.file_offset = size - t.file_offset :=
        sub64_of_le (by omega) hsize
      omega
    simp only [setup_remaining, next_start, ne_eq, not_true_eq_false, if_false, hchk, if_true,
      hwg, Bool.false_eq_true, hL]
    refine ⟨?_, ?_, ?_⟩ <;> first | rfl | trivial
  | cons n tl =>
    simp only at hend
    have hn := hnext n tl rfl
    have hne : n.track_start ≠ 0 := by omega
    simp only [setup_remaining, next_start, ne_eq, hne, not_false_eq_true, if_true, hwg,
      Bool.false_eq_true, if_false, hL64, hL]
    split
    · refine ⟨?_, ?_, ?_⟩ <;> first | rfl | trivial
    · rename_i hnot
      have : sub32 n.track_start start = length := by
        unfold u32 at hnot; unfold sub32; omega
      simp only [this, hL64, hL]
      refine ⟨?_, ?_, ?_⟩ <;> first | rfl | trivial

/-- C1 (as amended): a request of `length > 0` sectors on an audio track that starts at or
after `data_start` and ends before the next track (or, on the last track, inside the backing
file) succeeds and leaves `fpos = file_offset + (start - data_start) * sector_length` and
`fleft = length * sector_length`, provided both byte counts fit the variables that hold
them (32 bits for `fleft`, 64 bits for `fpos`). -/
theorem setup_playback_in_track (env : AudioEnv) (s : AudioState) (start length : Nat)
    (t : CUETrackInfo) (rest : List CUETrackInfo)
    (hreq : PlayableRequest env s start length t rest)
    (_hlen : 0 < length) (hdata : t.data_start ≤ start)
    (hend : EndsInTrack env s start length t rest)
    (hfleft : length * t.sector_length < 4294967296)
    (hfpos : t.file_offset + (start - t.data_start) * t.sector_length < 18446744073709551616) :
    (setup_playback env s start length false).1 = true ∧
    (setup_playback env s start length false).2.fpos =
      t.file_offset + (start - t.data_start) * t.sector_length ∧
    (setup_playback env s start length false).2.fleft = length * t.sector_length := by
  obtain ⟨hs32, _, ⟨pre, htracks, hpre, ht, hnext⟩, hf, hsize, haudio, hnum⟩ := hreq
  rw [setup_playback_first_eq env s start length pre t rest hf htracks hpre ht hnext haudio hnum]
  have h := setup_offset_in_track (after_search env s start length t rest.isEmpty) t start
    length (backing_size env s t) rest rfl hs32 hdata
    (by simp only [after_search, backing_size]; split <;> rfl)
    hsize hnext (by cases rest <;> exact hend) hfleft hfpos
  exact h

/-- Witness of C1: sectors 10 to 29 of track 1 of the two-track disc. -/
theorem setup_playback_in_track_witness :
    (setup_playback cd2_env cd2_state 10 20 false).1 = true ∧
    (setup_playback cd2_env cd2_state 10 20 false).2.fpos =
      cd2_track1.file_offset + (10 - cd2_track1.data_start) * cd2_track1.sector_length ∧
    (setup_playback cd2_env cd2_state 10 20 false).2.fleft = 20 * cd2_track1.sector_length :=
  setup_playback_in_track cd2_env cd2_state 10 20 cd2_track1 [cd2_track2]
    ⟨by decide, by decide,
      ⟨[], rfl, by simp, by decide, by intro n tl h; cases h; decide⟩,
      Or.inl ⟨rfl, rfl⟩, by decide, rfl, by decide⟩
    (by decide) (by decide) (by unfold EndsInTrack; decide) (by decide) (by decide)

/-- C1 fails as stated: a first track of 4000000 sectors, request of 2000000 sectors from
sector 0. The request ends before the next track, the call succeeds, but `fleft`, a 32-bit
variable, holds 2000000 * 2352 - 2^32 = 409032704 and not 2000000 * 2352 = 4704000000. -/
theorem setup_playback_in_track_fleft_wraps :
    PlayableRequest long_env long_state 0 2000000 cd2_track1 [long_track2] ∧
    0 < 2000000 ∧ cd2_track1.data_start ≤ 0 ∧
    EndsInTrack long_env long_state 0 2000000 cd2_track1 [long_track2] ∧
    (setup_playback long_env long_state 0 2000000 false).1 = true ∧
    (setup_playback long_env long_state 0 2000000 false).2.fleft = 409032704 ∧
    (setup_playback long_env long_state 0 2000000 false).2.fleft ≠
      2000000 * cd2_track1.sector_length :=
  ⟨⟨by decide, by decide,
      ⟨[], rfl, by simp, by decide, by intro n tl h; cases h; decide⟩,
      Or.inl ⟨rfl, rfl⟩, by decide, rfl, by decide⟩,
    by decide, by decide, by unfold EndsInTrack; decide, by decide, by decide, by decide⟩

theorem gap_stuck_step (env : AudioEnv) (s : AudioState) (irq : Bool × Bool)
    (h : GapStuck s) :
    GapStuck (irq_then_poll env s irq) ∧ (irq_then_poll env s irq).fleft = s.fleft ∧
    (irq_then_poll env s irq).gap_length = s.gap_length ∧
    (irq_then_poll env s irq).audio_file = s.audio_file := by
  obtain ⟨h1, h2, h3, h4, h5, h6⟩ := h
  have hlt : ∀ x, ¬ (u32 x ≥ s.gap_length) := by intro x; unfold u32; omega
  rcases irq with ⟨a, b⟩
  unfold irq_then_poll audio_poll audio_dma_irq audio_poll_refill GapStuck
  cases a <;> cases b <;> cases ha : s.sbufst_a <;> cases hb : s.sbufst_b <;>
    simp [h1, h2, h3, h5, h6, hlt, h4, ha, hb]

theorem gap_stuck_rounds (env : AudioEnv) (irqs : List (Bool × Bool)) :
    ∀ s : AudioState, GapStuck s →
      GapStuck (poll_rounds env irqs s) ∧ (poll_rounds env irqs s).fleft = s.fleft ∧
      (poll_rounds env irqs s).gap_length = s.gap_length ∧
      (poll_rounds env irqs s).audio_file = s.audio_file := by
  induction irqs with
  | nil => intro s h; exact ⟨h, rfl, rfl, rfl⟩
  | cons irq rest ih =>
    intro s h
    have h1 := gap_stuck_step env s irq h
    have h2 := ih _ h1.1
    simp only [poll_rounds]
    exact ⟨h2.1, by rw [h2.2.1, h1.2.1], by rw [h2.2.2.1, h1.2.2.1], by rw [h2.2.2.2, h1.2.2.2]⟩

/-- C3, the code at the failing input: one track with an unstored pregap of 150 sectors
(data from sector 150), Play(0, 200). The call succeeds inside the gap, but `gap_length` is
(0 - 150 mod 2^32) * 2352 = 10101762727392 bytes instead of 150 * 2352 = 352800, and the
32-bit `gap_read` never reaches it: after any number of buffer periods, whatever the
interrupts, the session is still inside the gap, `fleft` is untouched and nothing has been
read from the file. -/
theorem pregap_silence_never_ends :
    (audio_play pregap_env pregap_state 0 200 false).1 = true ∧
    (audio_play pregap_env pregap_state 0 200 false).2.within_gap = true ∧
    (audio_play pregap_env pregap_state 0 200 false).2.gap_length = 10101762727392 ∧
    (pregap_track.data_start - 0) * pregap_track.sector_length = 352800 ∧
    ∀ irqs : List (Bool × Bool),
      (poll_rounds pregap_env irqs
        (audio_play pregap_env pregap_state 0 200 false).2).within_gap = true ∧
      (poll_rounds pregap_env irqs
        (audio_play pregap_env pregap_state 0 200 false).2).fleft = 117600 ∧
      (poll_rounds pregap_env irqs
        (audio_play pregap_env pregap_state 0 200 false).2).audio_file.position = 0 := by
  have hstuck : GapStuck (audio_play pregap_env pregap_state 0 200 false).2 := by
    unfold GapStuck; decide
  refine ⟨by decide, by decide, by decide, by decide, ?_⟩
  intro irqs
  have h := gap_stuck_rounds pregap_env irqs _ hstuck
  refine ⟨h.1.2.2.1, ?_, ?_⟩
  · rw [h.2.1]; decide
  · rw [h.2.2.2]; decide

theorem setup_remaining_ok (s : AudioState) (t : CUETrackInfo) (start length nxt off : Nat) :
    ((setup_remaining s t start length nxt off).1 = true ↔
      (nxt ≠ 0 ∨ last_file_check s.audio_file.size t start length = true)) ∧
    ((setup_remaining s t start length nxt off).1 = true →
      (setup_remaining s t start length nxt off).2.fpos = off) := by
  unfold setup_remaining
  by_cases h0 : nxt = 0
  · by_cases hc : last_file_check s.audio_file.size t start length = true
    · simp [h0, hc]
    · simp [h0, hc]
  · simp only [ne_eq, h0, not_false_eq_true, if_true, true_or, iff_true]
    split <;> simp

/-- C4 (as amended): for a request that starts in the stored pregap of the active audio
track (before `data_start`, outside an unstored pregap), with a seek-back distance
`(data_start - start) * sector_length` below 2^32: the call fails when that distance
exceeds `file_offset`; otherwise it succeeds when a next track exists; on the last track,
for a range that reaches `data_start` (`data_start <= start + length < 2^32`, 32-bit
`sector_length`, `file_offset` inside the file), it succeeds exactly when the range ends
inside the file, `file_offset + (start + length - data_start) * sector_length <= size`; and
on success `fpos = file_offset - (data_start - start) * sector_length`. -/
theorem setup_playback_stored_pregap (env : AudioEnv) (s : AudioState) (start length : Nat)
    (t : CUETrackInfo) (rest : List CUETrackInfo)
    (hreq : PlayableRequest env s start length t rest)
    (hbefore : start < t.data_start) (hd32 : t.data_start < 4294967296)
    (hstored : t.unstored_pregap_length = 0 ∨ start + t.unstored_pregap_length < t.data_start)
    (hseek : (t.data_start - start) * t.sector_length < 4294967296)
    (hoff : t.file_offset < 18446744073709551616) :
    (t.file_offset < (t.data_start - start) * t.sector_length →
      (setup_playback env s start length false).1 = false) ∧
    ((t.data_start - start) * t.sector_length ≤ t.file_offset →
      (rest ≠ [] → (setup_playback env s start length false).1 = true) ∧
      (rest = [] → t.data_start ≤ start + length → start + length < 4294967296 →
        t.sector_length < 4294967296 → t.file_offset ≤ backing_size env s t →
        ((setup_playback env s start length false).1 = true ↔
          t.file_offset + (start + length - t.data_start) * t.sector_length ≤
            backing_size env s t)) ∧
      ((setup_playback env s start length false).1 = true →
        (setup_playback env s start length false).2.fpos =
          t.file_offset - (t.data_start - start) * t.sector_length)) := by
  obtain ⟨hs32, _, ⟨pre, htracks, hpre, ht, hnext⟩, hf, hsize, haudio, hnum⟩ := hreq
  rw [setup_playback_first_eq env s start length pre t rest hf htracks hpre ht hnext haudio hnum]
  have hnd : ¬ start ≥ t.data_start := by omega
  have hng : ¬ (t.unstored_pregap_length ≠ 0 ∧
      start ≥ sub32 t.data_start t.unstored_pregap_length) := by
    rintro ⟨h1, h2⟩
    rcases hstored with h | h
    · exact h1 h
    · unfold sub32 at h2; omega
  have hsub : sub32 t.data_start start = t.data_start - start := sub32_of_le (by omega) hd32
  have hsb : u32 ((t.data_start - start) * t.sector_length) =
      (t.data_start - start) * t.sector_length := u32_of_lt hseek
  have hsz : (after_search env s start length t rest.isEmpty).audio_file.size =
      backing_size env s t := by
    simp only [after_search, backing_size]; split <;> rfl
  have hnx : next_start rest ≠ 0 ↔ rest ≠ [] := by
    cases rest with
    | nil => simp [next_start]
    | cons n tl => have := hnext n tl rfl; simp [next_start]; omega
  unfold setup_offset
  simp only [hnd, hng, if_false, hsub, hsb]
  constructor
  · intro hlt
    simp [hlt]
  · intro hle
    have hle2 : ¬ (t.data_start - start) * t.sector_length > t.file_offset := by omega
    simp only [hle2, if_false]
    have hk := setup_remaining_ok (after_search env s start length t rest.isEmpty) t start
      length (next_start rest) (sub64 t.file_offset ((t.data_start - start) * t.sector_length))
    rw [hsz, hnx] at hk
    rw [sub64_of_le hle hoff] at hk ⊢
    refine ⟨fun hr => hk.1.mpr (Or.inl hr), ?_, hk.2⟩
    intro hr hreach hsum hsl hin
    have hcheck : last_file_check (backing_size env s t) t start length = true ↔
        t.file_offset + (start + length - t.data_start) * t.sector_length ≤
          backing_size env s t := by
      have hprod : (start + length - t.data_start) * t.sector_length <
          4294967296 * 4294967296 := Nat.mul_lt_mul'' (by omega) hsl
      unfold last_file_check
      simp only [decide_eq_true_eq]
      rw [u32_of_lt hsum, sub32_of_le hreach hsum, u64_of_lt (by omega),
        sub64_of_le hin hsize]
      omega
    rw [hk.1, ← hcheck]
    constructor
    · rintro (h | h)
      · exact absurd hr h
      · exact h
    · exact fun h => Or.inr h

theorem stored_request (start length : Nat) (hs : start < 4294967296)
    (hl : length < 4294967296) :
    PlayableRequest stored_env stored_state start length stored_track [] :=
  ⟨hs, hl, ⟨[], rfl, by simp, Nat.zero_le _, by intro n tl h; cases h⟩,
    Or.inl ⟨rfl, rfl⟩, by decide, rfl, by decide⟩

/-- Witness of C4: Play(100, 60) on the stored-pregap disc seeks 50 sectors back; the range
ends at sector 160, 10 sectors after `data_start`, inside the file. -/
theorem setup_playback_stored_pregap_witness :
    (setup_playback stored_env stored_state 100 60 false).1 = true ∧
    (setup_playback stored_env stored_state 100 60 false).2.fpos =
      stored_track.file_offset - (stored_track.data_start - 100) * stored_track.sector_length :=
  have h := (setup_playback_stored_pregap stored_env stored_state 100 60 stored_track []
    (stored_request 100 60 (by decide) (by decide))
    (by decide) (by decide) (Or.inl rfl) (by decide) (by decide)).2 (by decide)
  have hok := (h.2.1 rfl (by decide) (by decide) (by decide) (by decide)).mpr (by decide)
  ⟨hok, h.2.2 hok⟩

/-- C4 fails as stated: Play(0, 1000) on the stored-pregap disc. The seek-back distance
150 * 2352 = 352800 does not exceed `file_offset` = 352800, yet the call fails, because the
request runs past the end of the last file. -/
theorem setup_playback_stored_pregap_other_failure :
    PlayableRequest stored_env stored_state 0 1000 stored_track [] ∧
    0 < stored_track.data_start ∧ stored_track.unstored_pregap_length = 0 ∧
    ¬ (stored_track.file_offset <
        (stored_track.data_start - 0) * stored_track.sector_length) ∧
    (setup_playback stored_env stored_state 0 1000 false).1 = false :=
  ⟨stored_request 0 1000 (by decide) (by decide), by decide, rfl, by decide, by decide⟩

/-- The size check on a range that ends before `data_start`: Play(100, 10) on the
stored-pregap disc asks for bytes 235200 to 258720 of the 588000 in the file, the seek-back
distance 117600 does not exceed `file_offset`, yet the call fails, because
`start + length - data_start` wraps in 32 bits. -/
theorem stored_pregap_range_before_data :
    PlayableRequest stored_env stored_state 100 10 stored_track [] ∧
    (stored_track.data_start - 100) * stored_track.sector_length ≤ stored_track.file_offset ∧
    100 + 10 < stored_track.data_start ∧
    stored_track.file_offset - (stored_track.data_start - 100) * stored_track.sector_length
      + 10 * stored_track.sector_length ≤ backing_size stored_env stored_state stored_track ∧
    last_file_check (backing_size stored_env stored_state stored_track) stored_track 100 10
      = false ∧
    (setup_playback stored_env stored_state 100 10 false).1 = false :=
  ⟨stored_request 100 10 (by decide) (by decide), by decide, by decide, by decide,
    by decide, by decide⟩

/-- C5, the code at the failing input: on the two-track disc (track 2, the last one, has 100
sectors in the file), Play(110, 4294967291). The range needs (110 + 4294967291 - 100) * 2352
bytes, far more than the 235200 bytes after `file_offset`; but `start + length` wraps to 105
in 32 bits, the size check sees 5 sectors, and the call returns true. -/
theorem last_file_check_wraps :
    PlayableRequest cd2_env cd2_state 110 4294967291 cd2_track2 [] ∧
    backing_size cd2_env cd2_state cd2_track2 - cd2_track2.file_offset <
      (110 + 4294967291 - cd2_track2.data_start) * cd2_track2.sector_length ∧
    (setup_playback cd2_env cd2_state 110 4294967291 false).1 = true ∧
    (setup_playback cd2_env cd2_state 110 4294967291 false).2.fleft = 4294955536 :=
  ⟨⟨by decide, by decide,
      ⟨[cd2_track1], rfl, by simp [cd2_track1], by decide, by intro n tl h; cases h⟩,
      Or.inl ⟨rfl, rfl⟩, by decide, rfl, by decide⟩,
    by decide, by decide, by decide⟩

theorem setup_offset_controller (s : AudioState) (t : CUETrackInfo) (a b c : Nat) :
    SameController (setup_offset s t a b c).2 s := by
  unfold setup_offset setup_remaining
  dsimp only
  split_ifs <;> exact ⟨rfl, rfl, rfl, rfl⟩

theorem setup_playback_controller (env : AudioEnv) (s : AudioState) (start length : Nat)
    (c : Bool) :
    SameController (setup_playback env s start length c).2 s := by
  unfold setup_playback
  lift_lets
  extract_lets s0 s1 r file2 s2 s3 length1 s4 s5
  have h1 : SameController s1 s := by
    cases c <;> exact ⟨rfl, rfl, rfl, rfl⟩
  have h2 : SameController s2 s := h1
  have h3 : SameController s3 s := by
    cases hr : r.at_end <;> simp only [s3, hr] <;> exact h2
  have h5 : SameController s5 s := by
    cases c <;> exact h3
  split_ifs
  · exact h1
  · exact h2
  · exact h3
  · exact h3
  · exact h3
  · have h := setup_offset_controller s5 r.track_info r.start length1 r.start_of_next_track
    exact ⟨h.1.trans h5.1, h.2.1.trans h5.2.1, h.2.2.1.trans h5.2.2.1, h.2.2.2.trans h5.2.2.2⟩

/-- C6 (as amended): a zero-length play returns what the locator returns for the request;
when the locator succeeds it returns true and leaves the controller idle (not playing, not
paused) with status no-status. -/
theorem audio_play_zero_length (env : AudioEnv) (s : AudioState) (start : Nat) (swap : Bool) :
    (audio_play env s start 0 swap).1 =
      (setup_playback env (stopped_first env s) start 0 false).1 ∧
    ((setup_playback env (stopped_first env s) start 0 false).1 = true →
      (audio_play env s start 0 swap).1 = true ∧
      (audio_play env s start 0 swap).2.audio_idle = true ∧
      (audio_play env s start 0 swap).2.audio_playing = false ∧
      (audio_play env s start 0 swap).2.audio_paused = false ∧
      (audio_play env s start 0 swap).2.audio_last_status = ASC_NO_STATUS) := by
  unfold audio_play stopped_first
  dsimp only
  generalize setup_playback env _ start 0 false = r
  rcases r with ⟨b, s1⟩
  cases b <;> simp

/-- Witness of C6: a zero-length play at sector 10 of the two-track disc. -/
theorem audio_play_zero_length_witness :
    (audio_play cd2_env cd2_state 10 0 false).1 = true ∧
    (audio_play cd2_env cd2_state 10 0 false).2.audio_idle = true ∧
    (audio_play cd2_env cd2_state 10 0 false).2.audio_playing = false ∧
    (audio_play cd2_env cd2_state 10 0 false).2.audio_paused = false ∧
    (audio_play cd2_env cd2_state 10 0 false).2.audio_last_status = ASC_NO_STATUS :=
  (audio_play_zero_length cd2_env cd2_state 10 false).2 (by decide)

/-- C6 fails as stated: on a mixed-mode disc whose first track is a data track, a
zero-length play at sector 50 returns false, because the locator rejects the track before
the length is looked at. -/
theorem audio_play_zero_length_data_track :
    (audio_play mixed_env cd2_state 50 0 false).1 = false := by decide

/-- C7: whatever the prior state of the controller (idle, playing or paused) and the
request, when `audio_play` returns false the controller is idle afterwards: not active, not
playing, and the status is neither playing nor paused. -/
theorem audio_play_failure_idle (env : AudioEnv) (s : AudioState) (start length : Nat)
    (swap : Bool) (hs : ControllerState s)
    (hfail : (audio_play env s start length swap).1 = false) :
    audio_is_active (audio_play env s start length swap).2 = false ∧
    audio_is_playing (audio_play env s start length swap).2 = false ∧
    (audio_play env s start length swap).2.audio_last_status ≠ ASC_PLAYING ∧
    (audio_play env s start length swap).2.audio_last_status ≠ ASC_PAUSED := by
  have hfr := setup_playback_controller env (stopped_first env s) start length false
  have hst : (stopped_first env s).audio_idle = true ∧
      (stopped_first env s).audio_playing = false ∧
      (stopped_first env s).audio_last_status ≠ ASC_PLAYING ∧
      (stopped_first env s).audio_last_status ≠ ASC_PAUSED := by
    unfold stopped_first audio_stop
    rcases hs with ⟨h1, h2, _, h4, h5⟩ | ⟨h1, _⟩ | ⟨h1, _⟩
    · simp [h1, h2, h4, h5]
    · simp [h1]
    · simp [h1]
  have hres : (audio_play env s start length swap).2 =
      (setup_playback env (stopped_first env s) start length false).2 := by
    unfold audio_play at hfail ⊢
    unfold stopped_first
    dsimp only at hfail ⊢
    generalize setup_playback env _ start length false = r at hfail ⊢
    rcases r with ⟨b, s1⟩
    cases b
    · simp
    · simp only [Bool.not_true, Bool.false_eq_true, if_false] at hfail
      split_ifs at hfail <;> simp at hfail
  rw [hres]
  obtain ⟨f1, f2, _, f4⟩ := hfr
  unfold audio_is_active audio_is_playing
  rw [f1, f2, f4]
  simp [hst.1, hst.2.1, hst.2.2.1, hst.2.2.2]

/-- Witness of C7: Play(150, 1000) on the idle two-track disc runs past the file and
fails. -/
theorem audio_play_failure_idle_witness :
    audio_is_active (audio_play cd2_env cd2_state 150 1000 false).2 = false ∧
    audio_is_playing (audio_play cd2_env cd2_state 150 1000 false).2 = false ∧
    (audio_play cd2_env cd2_state 150 1000 false).2.audio_last_status ≠ ASC_PLAYING ∧
    (audio_play cd2_env cd2_state 150 1000 false).2.audio_last_status ≠ ASC_PAUSED :=
  audio_play_failure_idle cd2_env cd2_state 150 1000 false
    (Or.inl ⟨rfl, rfl, rfl, by decide, by decide⟩) (by decide)

/-- C8: `audio_set_paused(p)` returns false and changes nothing when the controller is idle
or `p` is the current pause flag; otherwise it returns true, sets the pause flag to `p` and
the status to paused or playing, and changes nothing else. Pausing twice returns true, then
false with the state (playback position included) unchanged by the second call. -/
theorem audio_set_paused_spec (s : AudioState) (p : Bool) :
    ((s.audio_idle = true ∨ p = s.audio_paused) → audio_set_paused s p = (false, s)) ∧
    ((s.audio_idle = false ∧ p ≠ s.audio_paused) →
      audio_set_paused s p =
        (true, { s with audio_paused := p,
                        audio_last_status := if p then ASC_PAUSED else ASC_PLAYING })) ∧
    ((s.audio_idle = false ∧ s.audio_paused = false) →
      (audio_set_paused s true).1 = true ∧
      audio_set_paused (audio_set_paused s true).2 true =
        (false, (audio_set_paused s true).2) ∧
      (audio_set_paused (audio_set_paused s true).2 true).2.fpos = s.fpos ∧
      (audio_set_paused (audio_set_paused s true).2 true).2.fleft = s.fleft) := by
  unfold audio_set_paused
  refine ⟨?_, ?_, ?_⟩
  · rintro (h | h)
    · simp [h]
    · subst h; cases s.audio_idle <;> cases s.audio_paused <;> simp
  · rintro ⟨h1, h2⟩
    cases p <;> cases hp : s.audio_paused <;> simp_all
  · rintro ⟨h1, h2⟩
    simp [h1, h2]

/-- Witness of C8: on the idle start-up state the call is refused; on the session started
by Play(10, 20) a first pause is accepted and a second one refused. -/
theorem audio_set_paused_spec_witness :
    audio_set_paused cd2_state true = (false, cd2_state) ∧
    audio_set_paused (audio_play cd2_env cd2_state 10 20 false).2 true =
      (true, { (audio_play cd2_env cd2_state 10 20 false).2 with
                audio_paused := true, audio_last_status := ASC_PAUSED }) ∧
    (audio_set_paused (audio_play cd2_env cd2_state 10 20 false).2 true).1 = true ∧
    audio_set_paused (audio_set_paused (audio_play cd2_env cd2_state 10 20 false).2 true).2
        true =
      (false, (audio_set_paused (audio_play cd2_env cd2_state 10 20 false).2 true).2) :=
  ⟨(audio_set_paused_spec cd2_state true).1 (Or.inl rfl),
    (audio_set_paused_spec (audio_play cd2_env cd2_state 10 20 false).2 true).2.1
      ⟨by decide, by decide⟩,
    ((audio_set_paused_spec (audio_play cd2_env cd2_state 10 20 false).2 true).2.2
      ⟨by decide, by decide⟩).1,
    ((audio_set_paused_spec (audio_play cd2_env cd2_state 10 20 false).2 true).2.2
      ⟨by decide, by decide⟩).2.1⟩

/-- C9: `audio_stop` is idempotent: a second call in a row changes nothing, the status code
and the buffers included. -/
theorem audio_stop_idempotent (env : AudioEnv) (s : AudioState) :
    audio_stop env (audio_stop env s) = audio_stop env s := by
  unfold audio_stop
  cases h : s.audio_idle <;> simp [h]

theorem run_ops_idle_no_status (env : AudioEnv) (ops : List ControlOp) :
    ∀ s : AudioState, s.audio_idle = true → s.audio_last_status = ASC_NO_STATUS →
      (run_ops env ops s).audio_idle = true ∧
      (run_ops env ops s).audio_last_status = ASC_NO_STATUS := by
  induction ops with
  | nil => intro s h1 h2; exact ⟨h1, h2⟩
  | cons op ops ih =>
    intro s h1 h2
    have hstep : (run_op env s op).audio_idle = true ∧
        (run_op env s op).audio_last_status = ASC_NO_STATUS := by
      cases op with
      | stop => simp [run_op, audio_stop, h1, h2]
      | set_paused p => simp [run_op, audio_set_paused, h1, h2]
      | poll => simp [run_op, audio_poll, h1, h2]
      | irq a b => cases a <;> cases b <;> simp [run_op, audio_dma_irq, h1, h2]
      | get_status => simp [run_op, audio_get_status_code, h1, h2]
    exact ih _ hstep.1 hstep.2

theorem get_status_code_fst (s : AudioState) :
    (audio_get_status_code s).1 = s.audio_last_status := by
  unfold audio_get_status_code; dsimp only; split_ifs <;> rfl

/-- C10: the terminal status is read once. After `audio_stop` on an active session the first
`audio_get_status_code` returns completed, and after any sequence of calls other than
`audio_play` the next one returns no-status. In general the call returns the stored status;
it resets the stored status to no-status when that is completed or errored and leaves
the state unchanged when it is playing, paused or no-status. -/
theorem status_read_once (env : AudioEnv) (s : AudioState) :
    (s.audio_idle = false →
      (audio_get_status_code (audio_stop env s)).1 = ASC_COMPLETED ∧
      ∀ ops : List ControlOp,
        (audio_get_status_code
          (run_ops env ops (audio_get_status_code (audio_stop env s)).2)).1 = ASC_NO_STATUS) ∧
    (audio_get_status_code s).1 = s.audio_last_status ∧
    ((s.audio_last_status = ASC_COMPLETED ∨ s.audio_last_status = ASC_ERRORED) →
      (audio_get_status_code s).2 = { s with audio_last_status := ASC_NO_STATUS }) ∧
    ((s.audio_last_status = ASC_PLAYING ∨ s.audio_last_status = ASC_PAUSED ∨
        s.audio_last_status = ASC_NO_STATUS) →
      (audio_get_status_code s).2 = s) := by
  refine ⟨?_, ?_, ?_, ?_⟩
  · intro h
    have h0 : (audio_get_status_code (audio_stop env s)).2.audio_idle = true ∧
        (audio_get_status_code (audio_stop env s)).2.audio_last_status = ASC_NO_STATUS := by
      simp [audio_get_status_code, audio_stop, h]
    refine ⟨by simp [audio_get_status_code, audio_stop, h], ?_⟩
    intro ops
    have := run_ops_idle_no_status env ops _ h0.1 h0.2
    rw [get_status_code_fst, this.2]
  · exact get_status_code_fst s
  · intro h
    unfold audio_get_status_code
    simp [h]
  · intro h
    unfold audio_get_status_code
    rcases h with h | h | h <;> simp [h]

/-- Witness of C10: the session started by Play(10, 20) is stopped; the status reads
completed once, then no-status, also after a poll and a refused pause. -/
theorem status_read_once_witness :
    (audio_get_status_code
      (audio_stop cd2_env (audio_play cd2_env cd2_state 10 20 false).2)).1 = ASC_COMPLETED ∧
    (audio_get_status_code
      (run_ops cd2_env [ControlOp.poll, ControlOp.set_paused true]
        (audio_get_status_code
          (audio_stop cd2_env (audio_play cd2_env cd2_state 10 20 false).2)).2)).1
      = ASC_NO_STATUS ∧
    (audio_get_status_code (audio_stop cd2_env (audio_play cd2_env cd2_state 10 20 false).2)).2
      = { audio_stop cd2_env (audio_play cd2_env cd2_state 10 20 false).2 with
          audio_last_status := ASC_NO_STATUS } ∧
    (audio_get_status_code cd2_state).2 = cd2_state :=
  ⟨((status_read_once cd2_env (audio_play cd2_env cd2_state 10 20 false).2).1
      (by decide)).1,
    ((status_read_once cd2_env (audio_play cd2_env cd2_state 10 20 false).2).1
      (by decide)).2 [ControlOp.poll, ControlOp.set_paused true],
    (status_read_once cd2_env
      (audio_stop cd2_env (audio_play cd2_env cd2_state 10 20 false).2)).2.2.1
      (Or.inl (by decide)),
    (status_read_once cd2_env cd2_state).2.2.2 (Or.inr (Or.inr rfl))⟩

theorem swapped_frames_length (vol0 vol1 : Nat) :
    ∀ (n : Nat) (l : List Int), l.length = n → (swapped_frames vol0 vol1 l).length = n := by
  intro n
  induction n using Nat.strong_induction_on with
  | _ n ih =>
    intro l hl
    match l, hl with
    | [], hl => simpa [swapped_frames] using hl
    | [a], hl => simpa [swapped_frames] using hl
    | a :: b :: rest, hl =>
      simp only [swapped_frames, List.length_cons] at hl ⊢
      have := ih (n - 2) (by omega) rest (by omega)
      omega

theorem swapped_frames_append (vol0 vol1 : Nat) (b : List Int) :
    ∀ (k : Nat) (a : List Int), a.length = 2 * k →
      swapped_frames vol0 vol1 (a ++ b) =
        swapped_frames vol0 vol1 a ++ swapped_frames vol0 vol1 b := by
  intro k
  induction k with
  | zero => intro a ha; have : a = [] := List.length_eq_zero.mp (by omega); subst this; simp [swapped_frames]
  | succ k ih =>
    intro a ha
    match a, ha with
    | x :: y :: rest, ha =>
      have := ih rest (by simp at ha; omega)
      show _ :: _ :: swapped_frames vol0 vol1 (rest ++ b) = _
      rw [this]
      simp [swapped_frames]
    | [], ha => simp at ha
    | [x], ha => simp at ha; omega

theorem getD_append_add (q : List Int) (j : Nat) (d : Int) :
    ∀ p : List Int, (p ++ q).getD (p.length + j) d = q.getD j d := by
  intro p
  induction p with
  | nil => simp
  | cons a p ih =>
    have : (a :: p).length + j = (p.length + j) + 1 := by simp; omega
    rw [this, List.cons_append, List.getD_cons_succ, ih]

theorem two_steps (vol0 vol1 : Nat) (p : List Int) (l r t : Int) (rest : List Int)
    (hp : p.length % 2 = 0) :
    snd_encode_step vol0 vol1 SamplePtr.same (p.length + 1)
      (snd_encode_step vol0 vol1 SamplePtr.same p.length (p ++ l :: r :: rest, t)) =
      (p ++ scaled vol1 r :: scaled vol0 l :: rest, r) := by
  have h1 : (p.length + 1) % 2 ≠ 0 := by omega
  have g0 : (p ++ l :: r :: rest).getD p.length 0 = l := by
    have := getD_append_add (l :: r :: rest) 0 0 p
    simpa using this
  have g1 : (p ++ l :: r :: rest).getD (p.length + 1) 0 = r := by
    have := getD_append_add (l :: r :: rest) 1 0 p
    simpa using this
  simp only [snd_encode_step, hp, h1, SamplePtr.read, scaled, g0, g1, if_true, if_false]
  simp [List.set_append]

theorem snd_encode_loop_frames (vol0 vol1 : Nat) (buf : List Int) :
    ∀ k : Nat, 2 * k ≤ buf.length →
      (snd_encode_loop vol0 vol1 SamplePtr.same buf (2 * k)).1 =
        swapped_frames vol0 vol1 (buf.take (2 * k)) ++ buf.drop (2 * k) := by
  intro k
  induction k with
  | zero => intro _; simp [snd_encode_loop, swapped_frames]
  | succ k ih =>
    intro hk
    have ih1 := ih (by omega)
    have hlen : (swapped_frames vol0 vol1 (buf.take (2 * k))).length = 2 * k :=
      swapped_frames_length vol0 vol1 (2 * k) _ (by simp; omega)
    obtain ⟨l, r, rest, hd⟩ : ∃ l r rest, buf.drop (2 * k) = l :: r :: rest := by
      have h2 : (buf.drop (2 * k)).length = buf.length - 2 * k := by simp
      match hq : buf.drop (2 * k), h2 with
      | [], h2 => simp at h2; omega
      | [a], h2 => simp at h2; omega
      | a :: b :: c, _ => exact ⟨a, b, c, rfl⟩
    have htake : buf.take (2 * (k + 1)) = buf.take (2 * k) ++ [l, r] := by
      have h3 := List.take_add buf (2 * k) 2
      rw [show 2 * (k + 1) = 2 * k + 2 by omega, h3, hd]
      rfl
    have hdrop : buf.drop (2 * (k + 1)) = rest := by
      rw [show 2 * (k + 1) = 2 * k + 2 by omega, ← List.drop_drop, hd]
      rfl
    have hstate : snd_encode_loop vol0 vol1 SamplePtr.same buf (2 * k) =
        (swapped_frames vol0 vol1 (buf.take (2 * k)) ++ l :: r :: rest,
          (snd_encode_loop vol0 vol1 SamplePtr.same buf (2 * k)).2) := by
      rw [← hd, ← ih1]
    have h2k : 2 * (k + 1) = (2 * k + 1) + 1 := by omega
    rw [h2k]
    simp only [snd_encode_loop]
    rw [hstate]
    have ts := two_steps vol0 vol1 (swapped_frames vol0 vol1 (buf.take (2 * k))) l r
      (snd_encode_loop vol0 vol1 SamplePtr.same buf (2 * k)).2 rest (by omega)
    rw [hlen] at ts
    rw [ts, ← h2k, htake, hdrop,
      swapped_frames_append vol0 vol1 [l, r] k _ (by simp; omega)]
    simp [swapped_frames]

theorem swapped_frames_getD (vol0 vol1 : Nat) :
    ∀ (k : Nat) (l : List Int), 2 * k + 1 < l.length →
      (swapped_frames vol0 vol1 l).getD (2 * k) 0 = scaled vol1 (l.getD (2 * k + 1) 0) ∧
      (swapped_frames vol0 vol1 l).getD (2 * k + 1) 0 = scaled vol0 (l.getD (2 * k) 0) := by
  intro k
  induction k with
  | zero =>
    intro l hl
    match l, hl with
    | a :: b :: rest, _ => simp [swapped_frames]
    | [], hl => simp at hl
    | [a], hl => simp at hl
  | succ k ih =>
    intro l hl
    match l, hl with
    | a :: b :: rest, hl =>
      have h := ih rest (by simp at hl; omega)
      have e1 : 2 * (k + 1) = (2 * k + 1) + 1 := by omega
      have e2 : 2 * (k + 1) + 1 = ((2 * k + 1) + 1) + 1 := by omega
      simp only [swapped_frames]
      rw [e2, e1]
      simp only [List.getD_cons_succ]
      exact h
    | [], hl => simp at hl
    | [a], hl => simp at hl

theorem scaled_eq (vol : Nat) (x : Int) (hx : IsInt16 x) (hv : vol ≤ 255) :
    scaled vol x = Int.tdiv (x * (vol : Int)) 255 ∧
    IsInt16 (Int.tdiv (x * (vol : Int)) 255) := by
  obtain ⟨h1, h2⟩ := hx
  have hv' : (vol : Int) ≤ 255 := by exact_mod_cast hv
  have hv0 : (0 : Int) ≤ (vol : Int) := Int.ofNat_nonneg _
  have hb : IsInt16 (Int.tdiv (x * (vol : Int)) 255) := by
    rcases le_or_lt 0 x with hx0 | hx0
    · have hm0 : 0 ≤ x * (vol : Int) := Int.mul_nonneg hx0 hv0
      have hm1 : x * (vol : Int) ≤ x * 255 := Int.mul_le_mul_of_nonneg_left hv' hx0
      rw [Int.tdiv_eq_ediv hm0 (by decide)]
      unfold IsInt16
      constructor <;> omega
    · have hm0 : 0 ≤ (-x) * (vol : Int) := Int.mul_nonneg (by omega) hv0
      have hm1 : (-x) * (vol : Int) ≤ (-x) * 255 :=
        Int.mul_le_mul_of_nonneg_left hv' (by omega)
      have e : x * (vol : Int) = -((-x) * (vol : Int)) := by ring
      rw [e, Int.neg_tdiv, Int.tdiv_eq_ediv hm0 (by decide)]
      unfold IsInt16
      constructor <;> omega
  refine ⟨?_, hb⟩
  unfold scaled s16
  obtain ⟨b1, b2⟩ := hb
  omega

theorem snd_encode_in_place (env : AudioEnv) (volume0 volume1 channel : Nat)
    (buf : List Int) (len : Nat) (heven : len % 2 = 0) (hlen : len ≤ buf.length) :
    (snd_encode env volume0 volume1 channel SamplePtr.same buf len).length = buf.length ∧
    ∀ k : Nat, 2 * k + 1 < len →
      (snd_encode env volume0 volume1 channel SamplePtr.same buf len).getD (2 * k) 0 =
        scaled (right_volume env volume1 channel) (buf.getD (2 * k + 1) 0) ∧
      (snd_encode env volume0 volume1 channel SamplePtr.same buf len).getD (2 * k + 1) 0 =
        scaled (left_volume env volume0 channel) (buf.getD (2 * k) 0) := by
  obtain ⟨m, hm⟩ : ∃ m, len = 2 * m := ⟨len / 2, by omega⟩
  subst hm
  have hloop := snd_encode_loop_frames (left_volume env volume0 channel)
    (right_volume env volume1 channel) buf m hlen
  have hout : snd_encode env volume0 volume1 channel SamplePtr.same buf (2 * m) =
      swapped_frames (left_volume env volume0 channel) (right_volume env volume1 channel)
        (buf.take (2 * m)) ++ buf.drop (2 * m) := by
    rw [← hloop]; rfl
  have hl2 : (swapped_frames (left_volume env volume0 channel)
      (right_volume env volume1 channel) (buf.take (2 * m))).length = 2 * m :=
    swapped_frames_length _ _ (2 * m) _ (by simp; omega)
  rw [hout]
  refine ⟨by simp [hl2]; omega, ?_⟩
  intro k hk
  have hp := swapped_frames_getD (left_volume env volume0 channel)
    (right_volume env volume1 channel) k (buf.take (2 * m)) (by simp; omega)
  have t0 : (buf.take (2 * m)).getD (2 * k) 0 = buf.getD (2 * k) 0 := by
    simp only [List.getD_eq_getElem?_getD, List.getElem?_take]
    rw [if_pos (by omega)]
  have t1 : (buf.take (2 * m)).getD (2 * k + 1) 0 = buf.getD (2 * k + 1) 0 := by
    simp only [List.getD_eq_getElem?_getD, List.getElem?_take]
    rw [if_pos (by omega)]
  rw [t0, t1] at hp
  constructor
  · rw [List.getD_append _ _ _ _ (by omega)]; exact hp.1
  · rw [List.getD_append _ _ _ _ (by omega)]; exact hp.2

theorem getD_IsInt16 (buf : List Int) (hs : ∀ x ∈ buf, IsInt16 x) (i : Nat) :
    IsInt16 (buf.getD i 0) := by
  rcases Nat.lt_or_ge i buf.length with h | h
  · rw [List.getD_eq_getElem _ _ h]; exact hs _ (List.getElem_mem h)
  · rw [List.getD_eq_default _ _ h]; unfold IsInt16; omega

/-- C11 (as amended): on a buffer of an even number of 16-bit samples encoded in place
with both channels enabled, `snd_encode` keeps the number of samples, and every input
sample `i` is multiplied by the volume of its channel (left for even `i`, right for odd
`i`), divided by 255 and truncated toward zero; the result is the output sample at the
other position of the stereo frame of `i`. -/
theorem snd_encode_scales (env : AudioEnv) (volume0 volume1 channel : Nat) (buf : List Int)
    (hboth : BothChannels env channel) (hv0 : volume0 ≤ 255) (hv1 : volume1 ≤ 255)
    (hs : ∀ x ∈ buf, IsInt16 x) (heven : buf.length % 2 = 0) :
    (snd_encode env volume0 volume1 channel SamplePtr.same buf buf.length).length
      = buf.length ∧
    ∀ i : Nat, i < buf.length →
      (snd_encode env volume0 volume1 channel SamplePtr.same buf buf.length).getD
          (partner i) 0 =
        Int.tdiv (buf.getD i 0 * ((if i % 2 = 0 then volume0 else volume1 : Nat) : Int)) 255 := by
  have h := snd_encode_in_place env volume0 volume1 channel buf buf.length heven (le_refl _)
  have hl : left_volume env volume0 channel = volume0 := by
    unfold left_volume; rw [if_neg hboth.2]
  have hr : right_volume env volume1 channel = volume1 := by
    unfold right_volume; rw [if_neg hboth.1]
  rw [hl, hr] at h
  refine ⟨h.1, ?_⟩
  intro i hi
  rcases Nat.mod_two_eq_zero_or_one i with he | ho
  · obtain ⟨k, rfl⟩ : ∃ k, i = 2 * k := ⟨i / 2, by omega⟩
    have := (h.2 k (by omega)).2
    simp only [partner, he, if_true]
    rw [this]
    exact (scaled_eq volume0 _ (getD_IsInt16 buf hs _) hv0).1
  · obtain ⟨k, rfl⟩ : ∃ k, i = 2 * k + 1 := ⟨i / 2, by omega⟩
    have := (h.2 k (by omega)).1
    have hne : ¬ (2 * k + 1) % 2 = 0 := by omega
    simp only [partner, hne, if_false, Nat.add_sub_cancel]
    rw [this]
    exact (scaled_eq volume1 _ (getD_IsInt16 buf hs _) hv1).1

/-- Witness of C11: one frame at full volume. -/
theorem snd_encode_scales_witness :
    (snd_encode cd2_env 255 128 513 SamplePtr.same [100, -200] 2).length = 2 ∧
    ∀ i : Nat, i < 2 →
      (snd_encode cd2_env 255 128 513 SamplePtr.same [100, -200] 2).getD (partner i) 0 =
        Int.tdiv (([100, -200] : List Int).getD i 0 *
          ((if i % 2 = 0 then 255 else 128 : Nat) : Int)) 255 :=
  snd_encode_scales cd2_env 255 128 513 [100, -200] (by unfold BothChannels; decide)
    (by decide) (by decide)
    (by simp [IsInt16]) (by decide)

/-- C11 fails as stated: the frame (100, 200) at full volume on both channels is encoded
as (200, 100); output sample 0 is not input sample 0 scaled by the left volume. -/
theorem snd_encode_swaps_frame :
    BothChannels cd2_env 513 ∧
    snd_encode cd2_env 255 255 513 SamplePtr.same [100, 200] 2 = [200, 100] ∧
    (snd_encode cd2_env 255 255 513 SamplePtr.same [100, 200] 2).getD 0 0 ≠
      Int.tdiv (([100, 200] : List Int).getD 0 0 * 255) 255 :=
  ⟨by unfold BothChannels; decide, by decide, by decide⟩

/-- C12: with both channels enabled and the volume set by `audio_set_volume(0, 255)`, the
output sample derived from a left-channel input sample is 0 and the output sample derived
from a right-channel input sample has the value of that input sample. -/
theorem left_muted_right_kept (env : AudioEnv) (s : AudioState) (buf : List Int)
    (hboth : BothChannels env s.channel) (hs : ∀ x ∈ buf, IsInt16 x)
    (heven : buf.length % 2 = 0) (k : Nat) (hk : 2 * k + 1 < buf.length) :
    (snd_encode env (audio_set_volume s 0 255).volume0 (audio_set_volume s 0 255).volume1
      (audio_set_volume s 0 255).channel SamplePtr.same buf buf.length).getD (2 * k + 1) 0
      = 0 ∧
    (snd_encode env (audio_set_volume s 0 255).volume0 (audio_set_volume s 0 255).volume1
      (audio_set_volume s 0 255).channel SamplePtr.same buf buf.length).getD (2 * k) 0
      = buf.getD (2 * k + 1) 0 := by
  have h := (snd_encode_in_place env 0 255 s.channel buf buf.length heven (le_refl _)).2 k hk
  have hr : right_volume env 255 s.channel = 255 := by
    unfold right_volume; rw [if_neg hboth.1]
  have hl : left_volume env 0 s.channel = 0 := by
    unfold left_volume; split <;> rfl
  rw [hl, hr] at h
  have e : (audio_set_volume s 0 255).volume0 = 0 ∧ (audio_set_volume s 0 255).volume1 = 255 ∧
      (audio_set_volume s 0 255).channel = s.channel := ⟨rfl, rfl, rfl⟩
  rw [e.1, e.2.1, e.2.2]
  constructor
  · rw [h.2]; simp [scaled, s16]
  · rw [h.1, (scaled_eq 255 _ (getD_IsInt16 buf hs _) (le_refl _)).1]
    exact Int.mul_tdiv_cancel _ (by decide)

/-- Witness of C12: two frames after `audio_set_volume(0, 255)` on the start-up state. -/
theorem left_muted_right_kept_witness :
    (snd_encode cd2_env (audio_set_volume cd2_state 0 255).volume0
      (audio_set_volume cd2_state 0 255).volume1 (audio_set_volume cd2_state 0 255).channel
      SamplePtr.same [100, -200, 300, 400] 4).getD 3 0 = 0 ∧
    (snd_encode cd2_env (audio_set_volume cd2_state 0 255).volume0
      (audio_set_volume cd2_state 0 255).volume1 (audio_set_volume cd2_state 0 255).channel
      SamplePtr.same [100, -200, 300, 400] 4).getD 2 0 = 400 :=
  left_muted_right_kept cd2_env cd2_state [100, -200, 300, 400]
    (by unfold BothChannels; decide)
    (by simp [IsInt16]) (by decide) 1 (by decide)

/-- C13: after `audio_set_channel`, when the low byte of `channel & AUDIO_CHANNEL_ENABLE_MASK`
is 0 every output sample derived from a left-channel input is 0, and likewise for the
right channel with the high byte; the output derived from a channel that is enabled is the
scaled input sample, whatever the enable bits of the other channel. -/
theorem channel_mask_mutes (env : AudioEnv) (s : AudioState) (chn : Nat) (buf : List Int)
    (hv0 : s.volume0 ≤ 255) (hv1 : s.volume1 ≤ 255) (hs : ∀ x ∈ buf, IsInt16 x)
    (heven : buf.length % 2 = 0) (k : Nat) (hk : 2 * k + 1 < buf.length) :
    (masked_channel env (audio_set_channel s chn) &&& 255 = 0 →
      (snd_encode env (audio_set_channel s chn).volume0 (audio_set_channel s chn).volume1
        (audio_set_channel s chn).channel SamplePtr.same buf buf.length).getD (2 * k + 1) 0
        = 0) ∧
    (masked_channel env (audio_set_channel s chn) >>> 8 = 0 →
      (snd_encode env (audio_set_channel s chn).volume0 (audio_set_channel s chn).volume1
        (audio_set_channel s chn).channel SamplePtr.same buf buf.length).getD (2 * k) 0
        = 0) ∧
    (masked_channel env (audio_set_channel s chn) &&& 255 ≠ 0 →
      (snd_encode env (audio_set_channel s chn).volume0 (audio_set_channel s chn).volume1
        (audio_set_channel s chn).channel SamplePtr.same buf buf.length).getD (2 * k + 1) 0
        = Int.tdiv (buf.getD (2 * k) 0 * (s.volume0 : Int)) 255) ∧
    (masked_channel env (audio_set_channel s chn) >>> 8 ≠ 0 →
      (snd_encode env (audio_set_channel s chn).volume0 (audio_set_channel s chn).volume1
        (audio_set_channel s chn).channel SamplePtr.same buf buf.length).getD (2 * k) 0
        = Int.tdiv (buf.getD (2 * k + 1) 0 * (s.volume1 : Int)) 255) := by
  have h := (snd_encode_in_place env s.volume0 s.volume1 (u16 chn) buf buf.length heven
    (le_refl _)).2 k hk
  have e : (audio_set_channel s chn).volume0 = s.volume0 ∧
      (audio_set_channel s chn).volume1 = s.volume1 ∧
      (audio_set_channel s chn).channel = u16 chn := ⟨rfl, rfl, rfl⟩
  rw [e.1, e.2.1, e.2.2]
  have hm : masked_channel env (audio_set_channel s chn) =
      u16 (u16 chn &&& env.AUDIO_CHANNEL_ENABLE_MASK) := rfl
  rw [hm]
  refine ⟨?_, ?_, ?_, ?_⟩
  · intro hz
    rw [h.2, left_volume, if_pos hz]
    simp [scaled, s16]
  · intro hz
    rw [h.1, right_volume, if_pos hz]
    simp [scaled, s16]
  · intro hz
    rw [h.2, left_volume, if_neg hz]
    exact (scaled_eq _ _ (getD_IsInt16 buf hs _) hv0).1
  · intro hz
    rw [h.1, right_volume, if_neg hz]
    exact (scaled_eq _ _ (getD_IsInt16 buf hs _) hv1).1

/-- Witness of C13: the channel word 0x0200 through the mask 0x0201 disables the left
channel only; the left sample 100 becomes 0 and the right sample -200 keeps its scaled
value. -/
theorem channel_mask_mutes_witness :
    (snd_encode cd2_env (audio_set_channel cd2_state 512).volume0
      (audio_set_channel cd2_state 512).volume1 (audio_set_channel cd2_state 512).channel
      SamplePtr.same [100, -200] 2).getD 1 0 = 0 ∧
    (snd_encode cd2_env (audio_set_channel cd2_state 512).volume0
      (audio_set_channel cd2_state 512).volume1 (audio_set_channel cd2_state 512).channel
      SamplePtr.same [100, -200] 2).getD 0 0 =
      Int.tdiv (([100, -200] : List Int).getD 1 0 * (cd2_state.volume1 : Int)) 255 :=
  ⟨(channel_mask_mutes cd2_env cd2_state 512 [100, -200] (by decide) (by decide)
      (by simp [IsInt16]) (by decide) 0 (by decide)).1 (by decide),
    (channel_mask_mutes cd2_env cd2_state 512 [100, -200] (by decide) (by decide)
      (by simp [IsInt16]) (by decide) 0 (by decide)).2.2.2 (by decide)⟩

theorem audio_poll_of_refill_entry (env : AudioEnv) (s e : AudioState)
    (h : refill_entry env s = some e) : audio_poll env s = audio_poll_refill env e := by
  unfold refill_entry at h
  unfold audio_poll
  dsimp only at h ⊢
  split_ifs at h ⊢
  all_goals first
    | (cases h; rfl)
    | (exfalso; simp_all; done)
    | (exfalso; tauto)

theorem audio_poll_refill_A (env : AudioEnv) (s : AudioState) (hA : s.sbufst_a = STALE) :
    audio_poll_refill env s = finish_buffer env (filled_A env s) := by
  have hd : decide (s.sbufst_a = STALE) = true := by simp [hA]
  unfold audio_poll_refill
  rw [if_neg (by simp [hA]), hd]
  rfl

theorem audio_poll_refill_B (env : AudioEnv) (s : AudioState) (hA : s.sbufst_a ≠ STALE)
    (hB : s.sbufst_b = STALE) :
    audio_poll_refill env s = finish_buffer env (filled_B env s) := by
  have hd : decide (s.sbufst_a = STALE) = false := by simp [hA]
  unfold audio_poll_refill
  rw [if_neg (by simp [hB]), hd]
  rfl

theorem refill_none (env : AudioEnv) (e : AudioState)
    (hA : e.sbufst_a ≠ STALE) (hB : e.sbufst_b ≠ STALE) : audio_poll_refill env e = e := by
  unfold audio_poll_refill
  rw [if_pos ⟨hA, hB⟩]

theorem fill_buffer_frame (env : AudioEnv) (s1 : AudioState) (buf : List Nat) :
    SameBuffers (fill_buffer env s1 buf).1 s1 ∧ SameController (fill_buffer env s1 buf).1 s1 ∧
    (fill_buffer env s1 buf).1.out_len = s1.out_len := by
  unfold fill_buffer SameBuffers SameController
  dsimp only
  split_ifs <;> exact ⟨⟨rfl, rfl, rfl, rfl, rfl, rfl⟩, ⟨rfl, rfl, rfl, rfl⟩, rfl⟩

theorem read_isOpen (f : FsFile) (buf : List Nat) (n : Nat) (h : f.isOpen = true) :
    (f.read buf n).2.1.isOpen = true := by
  cases f with
  | none => simp [FsFile.isOpen] at h
  | some o => simp [FsFile.read, FsFile.isOpen]

theorem seek_isOpen (f : FsFile) (pos : Nat) (h : f.isOpen = true) :
    (f.seek pos).2.isOpen = true := by
  cases f with
  | none => simp [FsFile.isOpen] at h
  | some o => unfold FsFile.seek; dsimp only; split_ifs <;> simp [FsFile.isOpen]

theorem fill_buffer_file (env : AudioEnv) (s1 : AudioState) (buf : List Nat)
    (hgap : s1.within_gap = false) :
    (fill_buffer env s1 buf).1.fpos = u64 (s1.fpos + refill_count env s1) ∧
    (fill_buffer env s1 buf).1.fleft = sub32 s1.fleft (refill_count env s1) ∧
    (fill_buffer env s1 buf).2.2 = refill_count env s1 ∧
    (fill_buffer env s1 buf).1.within_gap = false ∧
    (s1.audio_file.isOpen = true → (fill_buffer env s1 buf).1.audio_file.isOpen = true) := by
  unfold fill_buffer refill_count
  simp only [hgap, Bool.false_eq_true, if_false, true_and]
  intro ho
  apply read_isOpen
  split_ifs
  · exact seek_isOpen _ _ ho
  · exact ho

theorem finish_buffer_frame (env : AudioEnv) (s3 : AudioState) :
    SameController (finish_buffer env s3) s3 ∧
    (finish_buffer env s3).fpos = s3.fpos ∧ (finish_buffer env s3).fleft = s3.fleft ∧
    (finish_buffer env s3).out_len_a = s3.out_len_a ∧
    (finish_buffer env s3).out_len_b = s3.out_len_b ∧
    (finish_buffer env s3).out_len = s3.out_len ∧
    (finish_buffer env s3).within_gap = s3.within_gap ∧
    (finish_buffer env s3).audio_file = s3.audio_file ∧
    (finish_buffer env s3).last_track_reached = s3.last_track_reached := by
  unfold finish_buffer SameController
  split_ifs <;> exact ⟨⟨rfl, rfl, rfl, rfl⟩, rfl, rfl, rfl, rfl, rfl, rfl, rfl, rfl⟩

theorem finish_buffer_A (env : AudioEnv) (s3 : AudioState) (h : s3.sbufst_a = FILLING) :
    (finish_buffer env s3).sbufst_a = READY ∧ (finish_buffer env s3).sbufst_b = s3.sbufst_b ∧
    (finish_buffer env s3).output_buf_b = s3.output_buf_b := by
  unfold finish_buffer
  rw [if_pos h]
  exact ⟨rfl, rfl, rfl⟩

theorem finish_buffer_B (env : AudioEnv) (s3 : AudioState) (hA : s3.sbufst_a ≠ FILLING)
    (h : s3.sbufst_b = FILLING) :
    (finish_buffer env s3).sbufst_b = READY ∧ (finish_buffer env s3).sbufst_a = s3.sbufst_a ∧
    (finish_buffer env s3).output_buf_a = s3.output_buf_a := by
  unfold finish_buffer
  rw [if_neg hA, if_pos h]
  exact ⟨rfl, rfl, rfl⟩

theorem setup_offset_buffers (s : AudioState) (t : CUETrackInfo) (a b c : Nat) :
    SameBuffers (setup_offset s t a b c).2 s := by
  unfold setup_offset setup_remaining SameBuffers
  dsimp only
  split_ifs <;> exact ⟨rfl, rfl, rfl, rfl, rfl, rfl⟩

theorem setup_playback_buffers (env : AudioEnv) (s : AudioState) (start length : Nat)
    (c : Bool) :
    SameBuffers (setup_playback env s start length c).2 s := by
  unfold setup_playback
  lift_lets
  extract_lets s0 s1 r file2 s2 s3 length1 s4 s5
  have h1 : SameBuffers s1 s := by
    cases c <;> exact ⟨rfl, rfl, rfl, rfl, rfl, rfl⟩
  have h2 : SameBuffers s2 s := h1
  have h3 : SameBuffers s3 s := by
    cases hr : r.at_end <;> simp only [s3, hr] <;> exact h2
  have h5 : SameBuffers s5 s := by
    cases c <;> exact h3
  split_ifs
  · exact h1
  · exact h2
  · exact h3
  · exact h3
  · exact h3
  · have h := setup_offset_buffers s5 r.track_info r.start length1 r.start_of_next_track
    exact ⟨h.1.trans h5.1, h.2.1.trans h5.2.1, h.2.2.1.trans h5.2.2.1,
      h.2.2.2.1.trans h5.2.2.2.1, h.2.2.2.2.1.trans h5.2.2.2.2.1,
      h.2.2.2.2.2.trans h5.2.2.2.2.2⟩

theorem refill_entry_of_data (env : AudioEnv) (s : AudioState)
    (hi : s.audio_idle = false) (hp : s.audio_paused = false)
    (ho : s.audio_file.isOpen = true) (hf : s.fleft ≠ 0) :
    refill_entry env s = some { s with set_pause_buf := true } := by
  unfold refill_entry
  simp [hi, hp, ho, hf]

theorem refill_entry_frame (env : AudioEnv) (s e : AudioState)
    (h : refill_entry env s = some e) :
    s.audio_idle = false ∧ s.audio_paused = false ∧ SameController e s ∧ SameBuffers e s ∧
    (s.fleft ≠ 0 → e.fpos = s.fpos ∧ e.fleft = s.fleft ∧ e.within_gap = s.within_gap ∧
      e.audio_file = s.audio_file) := by
  unfold refill_entry at h
  dsimp only at h
  split_ifs at h with h1 h2 h3 h4 h5 h6
  · cases h
    have c := setup_playback_controller env { s with set_pause_buf := true } 0 0 true
    have b := setup_playback_buffers env { s with set_pause_buf := true } 0 0 true
    refine ⟨by simpa using h1, by simpa using h2, c, b, fun hne => absurd h5 hne⟩
  · cases h
    exact ⟨by simpa using h1, by simpa using h2, ⟨rfl, rfl, rfl, rfl⟩,
      ⟨rfl, rfl, rfl, rfl, rfl, rfl⟩, fun _ => ⟨rfl, rfl, rfl, rfl⟩⟩

theorem refill_A_facts (env : AudioEnv) (e : AudioState) (hA : e.sbufst_a = STALE) :
    (audio_poll_refill env e).sbufst_a = READY ∧
    (audio_poll_refill env e).sbufst_b = e.sbufst_b ∧
    (audio_poll_refill env e).output_buf_b = e.output_buf_b ∧
    (audio_poll_refill env e).out_len = A := by
  rw [audio_poll_refill_A env e hA]
  have ff := fill_buffer_frame env { e with sbufst_a := FILLING, out_len := A } e.output_buf_a
  have hfa : (filled_A env e).sbufst_a = FILLING := ff.1.1
  have hfb : (filled_A env e).sbufst_b = e.sbufst_b := ff.1.2.1
  have hob : (filled_A env e).output_buf_b = e.output_buf_b := ff.1.2.2.2.1
  have hol : (filled_A env e).out_len = A := ff.2.2
  have fa := finish_buffer_A env (filled_A env e) hfa
  have fr := finish_buffer_frame env (filled_A env e)
  exact ⟨fa.1, fa.2.1.trans hfb, fa.2.2.trans hob, fr.2.2.2.2.2.1.trans hol⟩

theorem refill_B_facts (env : AudioEnv) (e : AudioState) (hA : e.sbufst_a ≠ STALE)
    (hA2 : e.sbufst_a ≠ FILLING) (hB : e.sbufst_b = STALE) :
    (audio_poll_refill env e).sbufst_b = READY ∧
    (audio_poll_refill env e).sbufst_a = e.sbufst_a ∧
    (audio_poll_refill env e).output_buf_a = e.output_buf_a ∧
    (audio_poll_refill env e).out_len = B := by
  rw [audio_poll_refill_B env e hA hB]
  have ff := fill_buffer_frame env { e with sbufst_b := FILLING, out_len := B } e.output_buf_b
  have hfa : (filled_B env e).sbufst_a = e.sbufst_a := ff.1.1
  have hfb : (filled_B env e).sbufst_b = FILLING := ff.1.2.1
  have hoa : (filled_B env e).output_buf_a = e.output_buf_a := ff.1.2.2.1
  have hol : (filled_B env e).out_len = B := ff.2.2
  have fb := finish_buffer_B env (filled_B env e) (by rw [hfa]; exact hA2) hfb
  have fr := finish_buffer_frame env (filled_B env e)
  exact ⟨fb.1, fb.2.1.trans hfa, fb.2.2.trans hoa, fr.2.2.2.2.2.1.trans hol⟩

/-- C16 (as amended): a call of `audio_poll` that reaches the choice of the buffer (`e` is
the state at that point), buffer A not being in state FILLING: if A is STALE, A ends READY
and the state and contents of B are unchanged; else if B is STALE, B ends READY and A is
unchanged; else no buffer state or content changes and `fpos`, `fleft` keep the values they
have at that point, which are those at entry when `fleft` is not 0. -/
theorem audio_poll_one_buffer (env : AudioEnv) (s e : AudioState)
    (h : refill_entry env s = some e) (hA : s.sbufst_a ≠ FILLING) :
    (s.sbufst_a = STALE →
      (audio_poll env s).sbufst_a = READY ∧ (audio_poll env s).sbufst_b = s.sbufst_b ∧
      (audio_poll env s).output_buf_b = s.output_buf_b) ∧
    (s.sbufst_a ≠ STALE → s.sbufst_b = STALE →
      (audio_poll env s).sbufst_b = READY ∧ (audio_poll env s).sbufst_a = s.sbufst_a ∧
      (audio_poll env s).output_buf_a = s.output_buf_a) ∧
    (s.sbufst_a ≠ STALE → s.sbufst_b ≠ STALE →
      (audio_poll env s).sbufst_a = s.sbufst_a ∧ (audio_poll env s).sbufst_b = s.sbufst_b ∧
      (audio_poll env s).output_buf_a = s.output_buf_a ∧
      (audio_poll env s).output_buf_b = s.output_buf_b ∧
      (audio_poll env s).fpos = e.fpos ∧ (audio_poll env s).fleft = e.fleft) ∧
    (s.fleft ≠ 0 → e.fpos = s.fpos ∧ e.fleft = s.fleft) := by
  rw [audio_poll_of_refill_entry env s e h]
  obtain ⟨_, _, _, ⟨ba, bb, oa, ob, _, _⟩, hdata⟩ := refill_entry_frame env s e h
  refine ⟨?_, ?_, ?_, fun hne => ⟨(hdata hne).1, (hdata hne).2.1⟩⟩
  · intro hs
    have f := refill_A_facts env e (ba.trans hs)
    exact ⟨f.1, f.2.1.trans bb, f.2.2.1.trans ob⟩
  · intro hs hb
    have f := refill_B_facts env e (by rw [ba]; exact hs) (by rw [ba]; exact hA)
      (bb.trans hb)
    exact ⟨f.1, f.2.1.trans ba, f.2.2.1.trans oa⟩
  · intro hs hb
    rw [refill_none env e (by rw [ba]; exact hs) (by rw [bb]; exact hb)]
    exact ⟨ba, bb, oa, ob, rfl, rfl⟩

/-- Witness of C16: Play(10, 20) on the two-track disc, then the interrupt of channel A;
the poll refills A and leaves B alone. -/
theorem audio_poll_one_buffer_witness :
    (audio_poll cd2_env (session_after_irq cd2_env cd2_state 10 20)).sbufst_a = READY ∧
    (audio_poll cd2_env (session_after_irq cd2_env cd2_state 10 20)).sbufst_b =
      (session_after_irq cd2_env cd2_state 10 20).sbufst_b ∧
    (audio_poll cd2_env (session_after_irq cd2_env cd2_state 10 20)).output_buf_b =
      (session_after_irq cd2_env cd2_state 10 20).output_buf_b :=
  (audio_poll_one_buffer cd2_env (session_after_irq cd2_env cd2_state 10 20)
    { session_after_irq cd2_env cd2_state 10 20 with set_pause_buf := true }
    (refill_entry_of_data cd2_env _ (by decide) (by decide) (by decide) (by decide))
    (by decide)).1 (by decide)

/-- C16 fails as stated: on the idle start-up state buffer A is STALE and stays STALE; and
after Play(95, 10) on the two-track disc both buffers are READY and `fleft` is 0, yet the
poll changes `fleft` to 11760, because it continues into the next track before it looks
at the buffers. -/
theorem audio_poll_without_refill :
    cd2_state.sbufst_a = STALE ∧ (audio_poll cd2_env cd2_state).sbufst_a = STALE ∧
    (audio_play cd2_env cd2_state 95 10 false).2.sbufst_a = READY ∧
    (audio_play cd2_env cd2_state 95 10 false).2.sbufst_b = READY ∧
    (audio_play cd2_env cd2_state 95 10 false).2.fleft = 0 ∧
    (audio_poll cd2_env (audio_play cd2_env cd2_state 95 10 false).2).fleft = 11760 :=
  ⟨by decide, by decide, by decide, by decide, by decide, by decide⟩

theorem refill_file_facts (env : AudioEnv) (e : AudioState)
    (hst : e.sbufst_a = STALE ∨ e.sbufst_b = STALE) (hgap : e.within_gap = false) :
    (audio_poll_refill env e).fpos = u64 (e.fpos + refill_count env e) ∧
    (audio_poll_refill env e).fleft = sub32 e.fleft (refill_count env e) ∧
    (e.sbufst_a = STALE → (audio_poll_refill env e).out_len_a = refill_count env e) ∧
    (e.sbufst_a ≠ STALE → (audio_poll_refill env e).out_len_b = refill_count env e) ∧
    (audio_poll_refill env e).within_gap = false ∧
    (e.audio_file.isOpen = true → (audio_poll_refill env e).audio_file.isOpen = true) := by
  by_cases hA : e.sbufst_a = STALE
  · rw [audio_poll_refill_A env e hA]
    have fr := finish_buffer_frame env (filled_A env e)
    have ff := fill_buffer_file env { e with sbufst_a := FILLING, out_len := A }
      e.output_buf_a hgap
    obtain ⟨_, f1, f2, f3, _, _, f6, f7, _⟩ := fr
    rw [f1, f2, f3, f6, f7]
    exact ⟨ff.1, ff.2.1, fun _ => ff.2.2.1, fun h => absurd hA h, ff.2.2.2.1, ff.2.2.2.2⟩
  · have hB : e.sbufst_b = STALE := hst.resolve_left hA
    rw [audio_poll_refill_B env e hA hB]
    have fr := finish_buffer_frame env (filled_B env e)
    have ff := fill_buffer_file env { e with sbufst_b := FILLING, out_len := B }
      e.output_buf_b hgap
    obtain ⟨_, f1, f2, _, f4, _, f6, f7, _⟩ := fr
    rw [f1, f2, f4, f6, f7]
    exact ⟨ff.1, ff.2.1, fun h => absurd h hA, fun _ => ff.2.2.1, ff.2.2.2.1, ff.2.2.2.2⟩

theorem refill_count_eq_min (env : AudioEnv) (e : AudioState)
    (hbuf : env.AUDIO_BUFFER_SIZE < 65536) :
    refill_count env e = min e.fleft env.AUDIO_BUFFER_SIZE := by
  unfold refill_count u16
  split_ifs with h <;> omega

theorem fill_buffer_position (env : AudioEnv) (s1 : AudioState) (buf : List Nat)
    (hgap : s1.within_gap = false) (ho : s1.audio_file.isOpen = true)
    (hsz : s1.fpos + refill_count env s1 ≤ s1.audio_file.size) :
    (fill_buffer env s1 buf).1.audio_file.position = s1.fpos + refill_count env s1 := by
  unfold fill_buffer
  simp only [hgap, Bool.false_eq_true, if_false]
  cases hf : s1.audio_file with
  | none => simp [hf, FsFile.isOpen] at ho
  | some o =>
    simp only [hf, FsFile.size] at hsz
    have hrc : (if s1.fleft < u16 env.AUDIO_BUFFER_SIZE then u16 s1.fleft
        else u16 env.AUDIO_BUFFER_SIZE) = refill_count env s1 := rfl
    rw [hrc]
    by_cases hp : o.position = s1.fpos
    · simp only [FsFile.position, hp, ne_eq, not_true_eq_false, if_false, FsFile.read]
      have : min (refill_count env s1) (o.size - s1.fpos) = refill_count env s1 := by omega
      simp [hp, this]
    · have hle : s1.fpos ≤ o.size := by omega
      simp only [FsFile.position, ne_eq, hp, not_false_eq_true, if_true, FsFile.seek, hle,
        FsFile.read]
      have : min (refill_count env s1) (o.size - s1.fpos) = refill_count env s1 := by omega
      simp [this]

theorem refill_position (env : AudioEnv) (e : AudioState)
    (hst : e.sbufst_a = STALE ∨ e.sbufst_b = STALE) (hgap : e.within_gap = false)
    (ho : e.audio_file.isOpen = true)
    (hsz : e.fpos + refill_count env e ≤ e.audio_file.size) :
    (audio_poll_refill env e).audio_file.position = e.fpos + refill_count env e := by
  by_cases hA : e.sbufst_a = STALE
  · rw [audio_poll_refill_A env e hA]
    rw [(finish_buffer_frame env (filled_A env e)).2.2.2.2.2.2.2.1]
    exact fill_buffer_position env { e with sbufst_a := FILLING, out_len := A } _ hgap ho hsz
  · have hB : e.sbufst_b = STALE := hst.resolve_left hA
    rw [audio_poll_refill_B env e hA hB]
    rw [(finish_buffer_frame env (filled_B env e)).2.2.2.2.2.2.2.1]
    exact fill_buffer_position env { e with sbufst_b := FILLING, out_len := B } _ hgap ho hsz

theorem refill_read_full (env : AudioEnv) (e : AudioState)
    (ho : e.audio_file.isOpen = true)
    (hsz : e.fpos + refill_count env e ≤ e.audio_file.size) :
    refill_read_count env e = (refill_count env e : Int) := by
  unfold refill_read_count
  cases hf : e.audio_file with
  | none => simp [hf, FsFile.isOpen] at ho
  | some o =>
    simp only [hf, FsFile.size] at hsz
    by_cases hp : o.position = e.fpos
    · simp only [FsFile.position, hp, ne_eq, not_true_eq_false, if_false, FsFile.read]
      have : min (refill_count env e) (o.size - e.fpos) = refill_count env e := by omega
      simp [this]
    · have hle : e.fpos ≤ o.size := by omega
      simp only [FsFile.position, ne_eq, hp, not_false_eq_true, if_true, FsFile.seek, hle,
        FsFile.read]
      have : min (refill_count env e) (o.size - e.fpos) = refill_count env e := by omega
      simp [this]

/-- C17 (as amended): a call of `audio_poll` that refills a buffer from the file (`e` is the
state when the buffer is chosen: a buffer is STALE, the session is not within a gap)
requests and records as the valid length of that buffer `n = min(fleft, AUDIO_BUFFER_SIZE)`
bytes, increases `fpos` by `n` and decreases `fleft` by `n`; `fpos + fleft` is unchanged and
`fleft` does not underflow; when the open file holds `n` bytes at `fpos`, the read returns
`n` and leaves the read cursor at `fpos + n`. `AUDIO_BUFFER_SIZE` is a `uint16_t` value and
`fleft`, `fpos` stay in their 32 and 64 bits. -/
theorem audio_poll_file_refill (env : AudioEnv) (s e : AudioState)
    (h : refill_entry env s = some e)
    (hst : e.sbufst_a = STALE ∨ e.sbufst_b = STALE) (hgap : e.within_gap = false)
    (hbuf : env.AUDIO_BUFFER_SIZE < 65536) (hfl : e.fleft < 4294967296)
    (hfp : e.fpos + min e.fleft env.AUDIO_BUFFER_SIZE < 18446744073709551616) :
    (e.sbufst_a = STALE →
      (audio_poll env s).out_len_a = min e.fleft env.AUDIO_BUFFER_SIZE) ∧
    (e.sbufst_a ≠ STALE →
      (audio_poll env s).out_len_b = min e.fleft env.AUDIO_BUFFER_SIZE) ∧
    (audio_poll env s).fpos = e.fpos + min e.fleft env.AUDIO_BUFFER_SIZE ∧
    (audio_poll env s).fleft = e.fleft - min e.fleft env.AUDIO_BUFFER_SIZE ∧
    (audio_poll env s).fpos + (audio_poll env s).fleft = e.fpos + e.fleft ∧
    min e.fleft env.AUDIO_BUFFER_SIZE ≤ e.fleft ∧
    (e.audio_file.isOpen = true →
      e.fpos + min e.fleft env.AUDIO_BUFFER_SIZE ≤ e.audio_file.size →
      (audio_poll env s).audio_file.position = e.fpos + min e.fleft env.AUDIO_BUFFER_SIZE ∧
      refill_read_count env e = (min e.fleft env.AUDIO_BUFFER_SIZE : Nat)) ∧
    (s.fleft ≠ 0 → e.fpos = s.fpos ∧ e.fleft = s.fleft) := by
  rw [audio_poll_of_refill_entry env s e h]
  obtain ⟨f1, f2, f3, f4, _, _⟩ := refill_file_facts env e hst hgap
  have hn := refill_count_eq_min env e hbuf
  rw [hn] at f1 f2 f3 f4
  have hd := (refill_entry_frame env s e h).2.2.2.2
  rw [f1, f2, u64_of_lt hfp, sub32_of_le (Nat.min_le_left _ _) hfl]
  refine ⟨f3, f4, rfl, rfl, ?_, Nat.min_le_left _ _, ?_,
    fun hne => ⟨(hd hne).1, (hd hne).2.1⟩⟩
  · have := Nat.min_le_left e.fleft env.AUDIO_BUFFER_SIZE
    omega
  · intro ho hsz
    rw [← hn] at hsz ⊢
    exact ⟨refill_position env e hst hgap ho hsz, refill_read_full env e ho hsz⟩

/-- Witness of C17: Play(10, 20) on the two-track disc, then the interrupt of channel A;
the poll reads 8192 of the 30656 bytes left. -/
theorem audio_poll_file_refill_witness :
    (audio_poll cd2_env (session_after_irq cd2_env cd2_state 10 20)).out_len_a = 8192 ∧
    (audio_poll cd2_env (session_after_irq cd2_env cd2_state 10 20)).fpos = 39904 + 8192 ∧
    (audio_poll cd2_env (session_after_irq cd2_env cd2_state 10 20)).fleft = 30656 - 8192 ∧
    refill_read_count cd2_env
      { session_after_irq cd2_env cd2_state 10 20 with set_pause_buf := true } = 8192 := by
  have h := audio_poll_file_refill cd2_env (session_after_irq cd2_env cd2_state 10 20)
    { session_after_irq cd2_env cd2_state 10 20 with set_pause_buf := true }
    (refill_entry_of_data cd2_env _ (by decide) (by decide) (by decide) (by decide))
    (Or.inl (by decide)) (by decide) (by decide) (by decide) (by decide)
  exact ⟨h.1 (by decide), h.2.2.1, h.2.2.2.1,
    (h.2.2.2.2.2.2.1 (by decide) (by decide)).2⟩

theorem short_entry_reached :
    refill_entry cd2_env (session_after_irq cd2_env short_state 10 80) = some short_entry :=
  refill_entry_of_data cd2_env _ (by decide) (by decide) (by decide) (by decide)

/-- C17 fails as stated: Play(10, 80) on an image cut off after 25000 bytes, then the
interrupt of channel A. The poll refills buffer A from the file, outside a gap, with
`fleft` = 171776 and `fpos` = 39904; it records n = 8192 as the valid length of the buffer
and moves `fpos` and `fleft` by 8192, but the read returns 0: the number of bytes read is
not n, and the read cursor stays at byte 25000. -/
theorem audio_poll_short_read :
    refill_entry cd2_env (session_after_irq cd2_env short_state 10 80) = some short_entry ∧
    short_entry.sbufst_a = STALE ∧ short_entry.within_gap = false ∧
    short_entry.audio_file.isOpen = true ∧ short_entry.audio_file.size = 25000 ∧
    short_entry.audio_file.position = 25000 ∧
    short_entry.fpos = 39904 ∧ short_entry.fleft = 171776 ∧
    min short_entry.fleft cd2_env.AUDIO_BUFFER_SIZE = 8192 ∧
    (audio_poll cd2_env (session_after_irq cd2_env short_state 10 80)).out_len_a = 8192 ∧
    (audio_poll cd2_env (session_after_irq cd2_env short_state 10 80)).fpos = 39904 + 8192 ∧
    (audio_poll cd2_env (session_after_irq cd2_env short_state 10 80)).fleft =
      171776 - 8192 ∧
    refill_read_count cd2_env short_entry = 0 ∧
    refill_read_count cd2_env short_entry ≠ (8192 : Int) ∧
    (audio_poll cd2_env (session_after_irq cd2_env short_state 10 80)).audio_file.position =
      25000 :=
  ⟨short_entry_reached, by decide, by decide, by decide, by decide, by decide, by decide,
    by decide, by decide, by decide, by decide, by decide, by decide, by decide, by decide⟩

theorem refill_controller (env : AudioEnv) (e : AudioState) :
    SameController (audio_poll_refill env e) e := by
  by_cases hA : e.sbufst_a = STALE
  · rw [audio_poll_refill_A env e hA]
    have f := (finish_buffer_frame env (filled_A env e)).1
    have g : SameController (filled_A env e) e :=
      (fill_buffer_frame env { e with sbufst_a := FILLING, out_len := A } e.output_buf_a).2.1
    exact ⟨f.1.trans g.1, f.2.1.trans g.2.1, f.2.2.1.trans g.2.2.1, f.2.2.2.trans g.2.2.2⟩
  · by_cases hB : e.sbufst_b = STALE
    · rw [audio_poll_refill_B env e hA hB]
      have f := (finish_buffer_frame env (filled_B env e)).1
      have g : SameController (filled_B env e) e :=
        (fill_buffer_frame env { e with sbufst_b := FILLING, out_len := B }
          e.output_buf_b).2.1
      exact ⟨f.1.trans g.1, f.2.1.trans g.2.1, f.2.2.1.trans g.2.2.1, f.2.2.2.trans g.2.2.2⟩
    · rw [refill_none env e hA hB]
      exact ⟨rfl, rfl, rfl, rfl⟩

/-- C14 (as amended): when `audio_poll`, while playing and refilling a buffer from the
backing file (`e` is the state when the buffer is chosen), meets a failed seek or a read
that returns fewer bytes than requested, it carries on: on return the controller is still
active with its status unchanged, the chosen buffer is READY with the requested count as
its valid length, and `fpos` has advanced by that count. -/
theorem audio_poll_io_failure_goes_on (env : AudioEnv) (s e : AudioState)
    (h : refill_entry env s = some e)
    (hst : e.sbufst_a = STALE ∨ e.sbufst_b = STALE) (hgap : e.within_gap = false)
    (_hio : refill_io_failed env e) :
    (audio_poll env s).audio_idle = false ∧
    audio_is_active (audio_poll env s) = true ∧
    (audio_poll env s).audio_playing = s.audio_playing ∧
    (audio_poll env s).audio_last_status = s.audio_last_status ∧
    (e.sbufst_a = STALE → (audio_poll env s).sbufst_a = READY ∧
      (audio_poll env s).out_len_a = refill_count env e) ∧
    (e.sbufst_a ≠ STALE → e.sbufst_a ≠ FILLING → (audio_poll env s).sbufst_b = READY ∧
      (audio_poll env s).out_len_b = refill_count env e) ∧
    (audio_poll env s).fpos = u64 (e.fpos + refill_count env e) := by
  obtain ⟨hi, _, ⟨c1, c2, _, c4⟩, _, _⟩ := refill_entry_frame env s e h
  rw [audio_poll_of_refill_entry env s e h]
  obtain ⟨r1, r2, _, r4⟩ := refill_controller env e
  obtain ⟨f1, _, f3, f4, _, _⟩ := refill_file_facts env e hst hgap
  have hidle : (audio_poll_refill env e).audio_idle = false := by rw [r1, c1, hi]
  refine ⟨hidle, by simp [audio_is_active, hidle], by rw [r2, c2], by rw [r4, c4], ?_, ?_, f1⟩
  · intro hA
    exact ⟨(refill_A_facts env e hA).1, f3 hA⟩
  · intro hA hA2
    exact ⟨(refill_B_facts env e hA hA2 (hst.resolve_left hA)).1, f4 hA⟩

theorem short_session_entry :
    refill_entry cd2_env (session_after_irq cd2_env short_state 10 80) =
      some { session_after_irq cd2_env short_state 10 80 with set_pause_buf := true } :=
  refill_entry_of_data cd2_env _ (by decide) (by decide) (by decide) (by decide)

/-- Witness of C14: Play(10, 80) on an image cut off after 25000 bytes, then the interrupt
of channel A. The poll has to seek to byte 39904, past the end of the file; the seek fails,
and the poll goes on with buffer A READY. -/
theorem audio_poll_io_failure_goes_on_witness :
    (audio_poll cd2_env (session_after_irq cd2_env short_state 10 80)).audio_idle = false ∧
    (audio_poll cd2_env (session_after_irq cd2_env short_state 10 80)).audio_last_status =
      ASC_PLAYING ∧
    (audio_poll cd2_env (session_after_irq cd2_env short_state 10 80)).sbufst_a = READY := by
  have h := audio_poll_io_failure_goes_on cd2_env
    (session_after_irq cd2_env short_state 10 80)
    { session_after_irq cd2_env short_state 10 80 with set_pause_buf := true }
    short_session_entry (Or.inl (by decide)) (by decide)
    (Or.inl ⟨by decide, by decide⟩)
  exact ⟨h.1, h.2.2.2.1.trans (by decide), (h.2.2.2.2.1 (by decide)).1⟩

/-- C14 fails as stated: in the same session the poll that refills buffer A from the file
meets a failed seek (to byte 39904 of a file of 25000 bytes) and a read that returns 0 of
the 8192 bytes requested, and on return the controller is not idle: the status is still
playing. -/
theorem audio_poll_io_failure_not_idle :
    (session_after_irq cd2_env short_state 10 80).audio_idle = false ∧
    (session_after_irq cd2_env short_state 10 80).audio_paused = false ∧
    (session_after_irq cd2_env short_state 10 80).sbufst_a = STALE ∧
    (session_after_irq cd2_env short_state 10 80).within_gap = false ∧
    (session_after_irq cd2_env short_state 10 80).audio_file.position = 25000 ∧
    (session_after_irq cd2_env short_state 10 80).fpos = 39904 ∧
    ((session_after_irq cd2_env short_state 10 80).audio_file.seek 39904).1 = false ∧
    refill_count cd2_env (session_after_irq cd2_env short_state 10 80) = 8192 ∧
    ((session_after_irq cd2_env short_state 10 80).audio_file.read
      (session_after_irq cd2_env short_state 10 80).output_buf_a 8192).1 = 0 ∧
    (audio_poll cd2_env (session_after_irq cd2_env short_state 10 80)).audio_idle = false ∧
    (audio_poll cd2_env (session_after_irq cd2_env short_state 10 80)).audio_last_status =
      ASC_PLAYING :=
  ⟨by decide, by decide, by decide, by decide, by decide, by decide, by decide, by decide,
    by decide, by decide, by decide⟩

theorem audio_play_started (env : AudioEnv) (s : AudioState) (start length : Nat)
    (swap : Bool) (hlen : length ≠ 0)
    (hok : (setup_playback env (stopped_first env s) start length false).1 = true) :
    audio_play env s start length swap =
      (true, start_session env (setup_playback env (stopped_first env s) start length false).2)
    := by
  unfold audio_play stopped_first start_session
  unfold stopped_first at hok
  dsimp only at hok ⊢
  rw [hok]
  simp only [Bool.not_true, Bool.false_eq_true, if_false, hlen]
  split_ifs <;> rfl

theorem setup_remaining_fleft (s : AudioState) (t : CUETrackInfo) (a b n o : Nat)
    (h : (setup_remaining s t a b n o).1 = true) :
    (setup_remaining s t a b n o).2.fleft < 4294967296 := by
  unfold setup_remaining at h ⊢
  dsimp only at h ⊢
  split_ifs at h ⊢ <;> first | (simp only [u32]; omega) | (simp at h)

theorem setup_offset_fleft (s : AudioState) (t : CUETrackInfo) (a b n : Nat)
    (h : (setup_offset s t a b n).1 = true) :
    (setup_offset s t a b n).2.fleft < 4294967296 := by
  unfold setup_offset at h ⊢
  dsimp only at h ⊢
  split_ifs at h ⊢ <;> first | exact setup_remaining_fleft _ _ _ _ _ _ h | (simp at h)

theorem setup_playback_success (env : AudioEnv) (s : AudioState) (start length : Nat)
    (c : Bool) (h : (setup_playback env s start length c).1 = true) :
    (setup_playback env s start length c).2.fleft < 4294967296 ∧
    (setup_playback env s start length c).2.audio_file.isOpen = true := by
  unfold setup_playback at h ⊢
  lift_lets at h ⊢
  extract_lets s0 s1 r file2 s2 s3 length1 s4 s5 at h ⊢
  split_ifs at h ⊢ with h1 h2 h3 h4 h5
  all_goals first
    | (exfalso; simp at h; done)
    | skip
  refine ⟨setup_offset_fleft _ _ _ _ _ h, ?_⟩
  rw [(setup_offset_statics s5 r.track_info r.start length1 r.start_of_next_track).2.2.2]
  have e5 : s5.audio_file = file2 := by
    cases c <;> cases hr : r.at_end <;> simp [s5, s4, s3, s2, hr]
  rw [e5]
  have e3 : s3.audio_file = file2 := by
    cases hr : r.at_end <;> simp [s3, s2, hr]
  rw [e3] at h4
  cases hb : env.single_bin_file <;> cases ho : file2.isOpen <;> simp_all

theorem two_polls_prime (env : AudioEnv) (s3 : AudioState)
    (hbuf : env.AUDIO_BUFFER_SIZE < 65536) (hfl : s3.fleft < 4294967296)
    (a1 : s3.audio_idle = false) (a2 : s3.audio_paused = false)
    (a3 : s3.audio_file.isOpen = true) (a5 : s3.sbufst_a = STALE)
    (a6 : s3.sbufst_b = STALE) (a7 : s3.within_gap = false)
    (hd : env.AUDIO_BUFFER_SIZE < s3.fleft) :
    (audio_poll env { audio_poll env s3 with sbufsel := A }).sbufst_a = READY ∧
    (audio_poll env { audio_poll env s3 with sbufsel := A }).sbufst_b = READY := by
  have e1 := refill_entry_of_data env s3 a1 a2 a3 (by omega)
  have p1 := audio_poll_of_refill_entry env s3 _ e1
  have rA := refill_A_facts env { s3 with set_pause_buf := true } a5
  have rC := refill_controller env { s3 with set_pause_buf := true }
  have rF := refill_file_facts env { s3 with set_pause_buf := true } (Or.inl a5) a7
  have hn := refill_count_eq_min env { s3 with set_pause_buf := true } hbuf
  rw [← p1] at rA rC rF
  generalize audio_poll env s3 = s4 at rA rC rF
  have b1 : s4.audio_idle = false := rC.1.trans a1
  have b2 : s4.audio_paused = false := rC.2.2.1.trans a2
  have b3 : s4.audio_file.isOpen = true := rF.2.2.2.2.2 a3
  have hmin : min s3.fleft env.AUDIO_BUFFER_SIZE = env.AUDIO_BUFFER_SIZE := by omega
  have b4 : s4.fleft ≠ 0 := by
    rw [rF.2.1, hn]
    show sub32 s3.fleft (min s3.fleft env.AUDIO_BUFFER_SIZE) ≠ 0
    rw [hmin]
    unfold sub32
    omega
  have b5 : s4.sbufst_a = READY := rA.1
  have b6 : s4.sbufst_b = STALE := rA.2.1.trans a6
  have e2 := refill_entry_of_data env { s4 with sbufsel := A } b1 b2 b3 b4
  have p2 := audio_poll_of_refill_entry env { s4 with sbufsel := A } _ e2
  have rB := refill_B_facts env { s4 with sbufsel := A, set_pause_buf := true }
    (by show s4.sbufst_a ≠ STALE; rw [b5]; decide)
    (by show s4.sbufst_a ≠ FILLING; rw [b5]; decide) b6
  rw [← p2] at rB
  exact ⟨rB.2.1.trans b5, rB.1⟩

theorem start_session_primed (env : AudioEnv) (x : AudioState)
    (hbuf : env.AUDIO_BUFFER_SIZE < 65536) (hfl : x.fleft < 4294967296)
    (ho : x.audio_file.isOpen = true)
    (hdata : x.within_gap = true ∨ env.AUDIO_BUFFER_SIZE < x.fleft) :
    (start_session env x).sbufst_a = READY ∧ (start_session env x).sbufst_b = READY ∧
    (x.within_gap = true →
      (start_session env x).output_buf_a = zero_buf env ∧
      (start_session env x).output_buf_b = zero_buf env) := by
  unfold start_session
  dsimp only
  by_cases hg : x.within_gap = true
  · rw [if_pos hg]
    exact ⟨rfl, rfl, fun _ => ⟨rfl, rfl⟩⟩
  · rw [if_neg hg]
    have hg2 : x.within_gap = false := by simpa using hg
    have hd : env.AUDIO_BUFFER_SIZE < x.fleft := hdata.resolve_left hg
    have h := two_polls_prime env
      { x with audio_last_status := ASC_PLAYING, audio_paused := false,
               audio_playing := true, audio_idle := false,
               sbufst_a := STALE, sbufst_b := STALE, sbufsel := B }
      hbuf hfl rfl rfl ho rfl rfl hg2 hd
    exact ⟨h.1, h.2, fun h => absurd h hg⟩

/-- C20 (as amended): for a request with length > 0 for which `setup_playback` succeeds,
`audio_play` returns true and both buffers are READY when the hardware is started, provided
the session starts in-gap (both buffers are then zero-filled) or `setup_playback` located
more than one buffer of data (`fleft > AUDIO_BUFFER_SIZE`; each buffer is then filled by one
refill cycle). -/
theorem audio_play_primes (env : AudioEnv) (s : AudioState) (start length : Nat)
    (swap : Bool) (hlen : 0 < length)
    (hok : (setup_playback env (stopped_first env s) start length false).1 = true)
    (hbuf : env.AUDIO_BUFFER_SIZE < 65536)
    (hdata : (setup_playback env (stopped_first env s) start length false).2.within_gap = true ∨
      env.AUDIO_BUFFER_SIZE <
        (setup_playback env (stopped_first env s) start length false).2.fleft) :
    (audio_play env s start length swap).1 = true ∧
    (audio_play env s start length swap).2.sbufst_a = READY ∧
    (audio_play env s start length swap).2.sbufst_b = READY ∧
    ((setup_playback env (stopped_first env s) start length false).2.within_gap = true →
      (audio_play env s start length swap).2.output_buf_a = zero_buf env ∧
      (audio_play env s start length swap).2.output_buf_b = zero_buf env) := by
  rw [audio_play_started env s start length swap (by omega) hok]
  have hs := setup_playback_success env (stopped_first env s) start length false hok
  have h := start_session_primed env _ hbuf hs.1 hs.2 hdata
  exact ⟨rfl, h.1, h.2.1, h.2.2⟩

/-- Witness of C20: Play(10, 20) on the two-track disc locates 47040 bytes. -/
theorem audio_play_primes_witness :
    (audio_play cd2_env cd2_state 10 20 false).1 = true ∧
    (audio_play cd2_env cd2_state 10 20 false).2.sbufst_a = READY ∧
    (audio_play cd2_env cd2_state 10 20 false).2.sbufst_b = READY :=
  have h := audio_play_primes cd2_env cd2_state 10 20 false (by decide) (by decide)
    (by decide) (Or.inr (by decide))
  ⟨h.1, h.2.1, h.2.2.1⟩

/-- C20 fails as stated: Play(10, 1) on the two-track disc returns true; the first refill
takes the 2352 bytes of the request into buffer A, the second poll finds the session out of
data and returns, and buffer B is STALE when the hardware is started. -/
theorem audio_play_short_request :
    (audio_play cd2_env cd2_state 10 1 false).1 = true ∧
    (audio_play cd2_env cd2_state 10 1 false).2.sbufst_a = READY ∧
    (audio_play cd2_env cd2_state 10 1 false).2.out_len_a = 2352 ∧
    (audio_play cd2_env cd2_state 10 1 false).2.sbufst_b = STALE :=
  ⟨by decide, by decide, by decide, by decide⟩

theorem lba_position_inactive (s : AudioState)
    (h : s.audio_idle = true ∨ s.current_track.track_number = 0) :
    audio_get_lba_position s = 0 := by
  unfold audio_get_lba_position audio_is_active
  rcases h with h | h <;> simp [h]

theorem lba_position_in_file (s : AudioState) (k : Nat)
    (hact : s.audio_idle = false) (hnum : s.current_track.track_number ≠ 0)
    (hopen : s.audio_file.isOpen = true) (hsl : 0 < s.current_track.sector_length)
    (hpos : s.audio_file.position =
      s.current_track.file_offset + k * s.current_track.sector_length)
    (h64 : s.current_track.file_offset + k * s.current_track.sector_length
      < 18446744073709551616)
    (h32 : s.current_track.data_start + k < 4294967296) :
    audio_get_lba_position s = s.current_track.data_start + k := by
  have hsub : sub64 s.audio_file.position s.current_track.file_offset =
      k * s.current_track.sector_length := by
    rw [hpos]
    unfold sub64
    omega
  unfold audio_get_lba_position audio_is_active
  simp only [hact, Bool.not_false, Bool.true_and, hopen, Bool.and_true, decide_eq_true_eq,
    hnum, ne_eq, not_false_eq_true, if_true, hsub, Nat.mul_div_cancel _ hsl]
  unfold u32
  omega

/-- C15: on the stored-pregap disc (one audio track, data_start 150, file_offset 352800,
sectors of 2352 bytes) `setup_playback(100, 60, false)` succeeds and positions the session
50 sectors before `file_offset`, at byte 235200. With the file read position equal to
`fpos`, `audio_get_lba_position` returns 2308179803 and not 100, and after
`audio_play(100, 60)`, 16384 bytes further, it returns 2308179810. An inactive controller
reports 0 and an in-track session (Play(10, 20) on the two-track disc) reports its start. -/
theorem lba_position_stored_pregap :
    (setup_playback stored_env stored_state 100 60 false).1 = true ∧
    (positioned_session stored_env stored_state 100 60).fpos = 235200 ∧
    (positioned_session stored_env stored_state 100 60).audio_file.position = 235200 ∧
    (positioned_session stored_env stored_state 100 60).current_track.sector_length = 2352 ∧
    audio_get_lba_position (positioned_session stored_env stored_state 100 60)
      = 2308179803 ∧
    audio_get_lba_position (audio_play stored_env stored_state 100 60 false).2
      = 2308179810 ∧
    audio_get_lba_position stored_state = 0 ∧
    audio_get_lba_position (positioned_session cd2_env cd2_state 10 20) = 10 :=
  ⟨by decide, by decide, by decide, by decide, by decide, by decide, by decide, by decide⟩

/-- C19: on the two-track pregap disc (track 1 with an unstored pregap of 150 sectors,
data_start 150, next track at sector 250) `setup_playback(50, 180, false)` starts inside
the pregap and ends at sector 230, after data_start and before the next track. It succeeds
with `within_gap` set and `fpos = file_offset = 0`, but `gap_length` is
(2^32 - 100) * 2352 = 10101762844992 and not 100 * 2352 = 235200, and `fleft` is
(180 - 150) * 2352 = 70560 and not (180 - 100) * 2352 = 188160. -/
theorem pregap_request_lengths :
    in_unstored_pregap pregap_track 50 = true ∧
    pregap_track.data_start - pregap_track.unstored_pregap_length ≤ 50 ∧
    50 < pregap_track.data_start ∧ pregap_track.data_start < 50 + 180 ∧
    50 + 180 < gap2_track2.track_start ∧
    (setup_playback gap2_env gap2_state 50 180 false).1 = true ∧
    (setup_playback gap2_env gap2_state 50 180 false).2.within_gap = true ∧
    (setup_playback gap2_env gap2_state 50 180 false).2.last_track_reached = true ∧
    (setup_playback gap2_env gap2_state 50 180 false).2.fpos = pregap_track.file_offset ∧
    (setup_playback gap2_env gap2_state 50 180 false).2.gap_length = 10101762844992 ∧
    (setup_playback gap2_env gap2_state 50 180 false).2.gap_length ≠
      (pregap_track.data_start - 50) * pregap_track.sector_length ∧
    (setup_playback gap2_env gap2_state 50 180 false).2.fleft = 70560 ∧
    (setup_playback gap2_env gap2_state 50 180 false).2.fleft ≠
      (180 - (pregap_track.data_start - 50)) * pregap_track.sector_length :=
  ⟨by decide, by decide, by decide, by decide, by decide, by decide, by decide, by decide,
    by decide, by decide, by decide, by decide, by decide⟩

theorem setup_offset_next (s : AudioState) (t : CUETrackInfo) (start length nxt : Nat)
    (hwg : s.within_gap = false) (h1 : start < nxt) (hn32 : nxt < 4294967296)
    (hsum : start + length < 4294967296) (hd : t.data_start ≤ nxt)
    (hbytes : (nxt - start) * t.sector_length < 4294967296)
    (hok : (setup_offset s t start length nxt).1 = true) :
    (start + length < nxt → (setup_offset s t start length nxt).2.last_track_reached = true) ∧
    (nxt < start + length →
      (setup_offset s t start length nxt).2.last_track_reached = false ∧
      (in_unstored_pregap t start = false →
        (setup_offset s t start length nxt).2.fleft = (nxt - start) * t.sector_length) ∧
      (in_unstored_pregap t start = true →
        (setup_offset s t start length nxt).2.fleft =
          (nxt - t.data_start) * t.sector_length)) := by
  have hne : nxt ≠ 0 := by omega
  have h32 : u32 (start + length) = start + length := u32_of_lt hsum
  have hsub : sub32 nxt start = nxt - start := sub32_of_le (by omega) hn32
  have hsubd : sub32 nxt t.data_start = nxt - t.data_start := sub32_of_le hd hn32
  have hB : u32 (u64 ((nxt - start) * t.sector_length)) = (nxt - start) * t.sector_length := by
    rw [u64_of_lt (by omega), u32_of_lt hbytes]
  unfold setup_offset at hok ⊢
  unfold in_unstored_pregap
  by_cases hds : t.data_start ≤ start
  · have hnlt : ¬ start < t.data_start := by omega
    simp only [ge_iff_le, hds, if_true, setup_remaining, ne_eq, hne, not_false_eq_true, h32,
      hwg, Bool.false_eq_true, if_false, hsub, hB, hnlt, decide_False, Bool.false_and]
    constructor
    · intro h; rw [if_pos h]
    · intro h; rw [if_neg (by omega)]; simp
  · have hlt : start < t.data_start := by omega
    have hle : (nxt - t.data_start) * t.sector_length ≤ (nxt - start) * t.sector_length :=
      Nat.mul_le_mul_right _ (by omega)
    have hBd : u32 (u64 ((nxt - t.data_start) * t.sector_length)) =
        (nxt - t.data_start) * t.sector_length := by
      rw [u64_of_lt (by omega), u32_of_lt (by omega)]
    by_cases hg : t.unstored_pregap_length ≠ 0 ∧
        start ≥ sub32 t.data_start t.unstored_pregap_length
    · simp only [ge_iff_le, hds, if_false, hg, and_self, if_true, setup_remaining, ne_eq, hne,
        not_false_eq_true, h32, hsubd, hBd, hlt, decide_True, Bool.true_and, hg.1, hg.2,
        Bool.and_self]
      constructor
      · intro h; rw [if_pos h]
      · intro h; rw [if_neg (by omega)]; simp
    · have hdec : (decide (t.unstored_pregap_length ≠ 0) &&
          decide (sub32 t.data_start t.unstored_pregap_length ≤ start)) = false := by
        by_contra hc
        simp only [Bool.not_eq_false, Bool.and_eq_true, decide_eq_true_eq] at hc
        exact hg hc
      simp only [ge_iff_le, hds, if_false, hg] at hok ⊢
      simp only [hlt, decide_True, Bool.true_and, hdec]
      split_ifs at hok ⊢ with hsb
      simp only [setup_remaining, ne_eq, hne, not_false_eq_true, if_true, h32, hwg,
        Bool.false_eq_true, if_false, hsub, hB]
      constructor
      · intro h; rw [if_pos h]
      · intro h; rw [if_neg (by omega)]; simp

/-- C18 (as amended): when a next track exists and `setup_playback(start, length, false)`
succeeds, `last_track_reached` is true if the request ends before the next track
(start + length < start_of_next_track) and false if it spans into it
(start + length > start_of_next_track); in the second case `fleft` is
(start_of_next_track - start) * sector_length for a start in the file and
(start_of_next_track - data_start) * sector_length for a start inside the unstored pregap
(the silence of the gap is not counted in `fleft`). -/
theorem setup_playback_next_track (env : AudioEnv) (s : AudioState) (start length : Nat)
    (t n : CUETrackInfo) (tl : List CUETrackInfo)
    (hreq : PlayableRequest env s start length t (n :: tl))
    (hsum : start + length < 4294967296) (hn32 : n.track_start < 4294967296)
    (hd : t.data_start ≤ n.track_start)
    (hbytes : (n.track_start - start) * t.sector_length < 4294967296)
    (hok : (setup_playback env s start length false).1 = true) :
    (start + length < n.track_start →
      (setup_playback env s start length false).2.last_track_reached = true) ∧
    (n.track_start < start + length →
      (setup_playback env s start length false).2.last_track_reached = false ∧
      (in_unstored_pregap t start = false →
        (setup_playback env s start length false).2.fleft =
          (n.track_start - start) * t.sector_length) ∧
      (in_unstored_pregap t start = true →
        (setup_playback env s start length false).2.fleft =
          (n.track_start - t.data_start) * t.sector_length)) := by
  obtain ⟨_, _, ⟨pre, htr, hpre, ht, hnext⟩, hf, _, haudio, hnum⟩ := hreq
  have heq := setup_playback_first_eq env s start length pre t (n :: tl) hf htr hpre ht hnext
    haudio hnum
  rw [heq] at hok ⊢
  exact setup_offset_next _ t start length n.track_start rfl (hnext n tl rfl) hn32 hsum hd
    hbytes hok

/-- Witness of C18: Play(95, 10) on the two-track disc spans into track 2 at sector 100. -/
theorem setup_playback_next_track_witness :
    (setup_playback cd2_env cd2_state 95 10 false).2.last_track_reached = false ∧
    (setup_playback cd2_env cd2_state 95 10 false).2.fleft =
      (cd2_track2.track_start - 95) * cd2_track1.sector_length :=
  have h := (setup_playback_next_track cd2_env cd2_state 95 10 cd2_track1 cd2_track2 []
    ⟨by decide, by decide,
      ⟨[], rfl, by simp, by decide, by intro n tl h; cases h; decide⟩,
      Or.inl ⟨rfl, rfl⟩, by decide, rfl, by decide⟩
    (by decide) (by decide) (by decide) (by decide) (by decide)).2 (by decide)
  ⟨h.1, h.2.1 (by decide)⟩

/-- C18 fails as stated: on the two-track pregap disc Play(100, 200) starts inside the
unstored pregap of track 1 and spans into track 2 at sector 250. `last_track_reached` is
false, and `fleft` is (250 - 150) * 2352 = 235200, the data bytes of track 1, and not
(250 - 100) * 2352 = 352800. -/
theorem setup_playback_gap_span :
    PlayableRequest gap2_env gap2_state 100 200 pregap_track [gap2_track2] ∧
    gap2_track2.track_start < 100 + 200 ∧
    (setup_playback gap2_env gap2_state 100 200 false).1 = true ∧
    (setup_playback gap2_env gap2_state 100 200 false).2.last_track_reached = false ∧
    (setup_playback gap2_env gap2_state 100 200 false).2.fleft = 235200 ∧
    (setup_playback gap2_env gap2_state 100 200 false).2.fleft ≠
      (gap2_track2.track_start - 100) * pregap_track.sector_length :=
  ⟨⟨by decide, by decide,
      ⟨[], rfl, by simp, by decide, by intro n tl h; cases h; decide⟩,
      Or.inl ⟨rfl, rfl⟩, by decide, rfl, by decide⟩,
    by decide, by decide, by decide, by decide, by decide⟩

/-- C21 (as amended): when `audio_poll` is called while the controller is active and not
paused with `last_track_reached` set and `fleft = 0`: if both buffers are STALE the
controller becomes idle and the next `audio_get_status_code` returns completed; if at least
one buffer is not STALE the call changes no state except that the function-local flag
`set_pause_buf` is set. -/
theorem audio_poll_out_of_data (env : AudioEnv) (s : AudioState)
    (hact : s.audio_idle = false) (hp : s.audio_paused = false)
    (hl : s.last_track_reached = true) (hf : s.fleft = 0) :
    (s.sbufst_a = STALE → s.sbufst_b = STALE →
      (audio_poll env s).audio_idle = true ∧
      audio_is_active (audio_poll env s) = false ∧
      (audio_get_status_code (audio_poll env s)).1 = ASC_COMPLETED) ∧
    ((s.sbufst_a ≠ STALE ∨ s.sbufst_b ≠ STALE) →
      audio_poll env s = { s with set_pause_buf := true }) ∧
    (s.set_pause_buf = true → (s.sbufst_a ≠ STALE ∨ s.sbufst_b ≠ STALE) →
      audio_poll env s = s) := by
  have hwait : (s.sbufst_a ≠ STALE ∨ s.sbufst_b ≠ STALE) →
      audio_poll env s = { s with set_pause_buf := true } := by
    intro hb
    unfold audio_poll
    dsimp only
    split_ifs
    all_goals first | rfl | (exfalso; simp_all; done) | (exfalso; tauto)
  refine ⟨?_, hwait, ?_⟩
  · intro ha hb
    have hstop : audio_poll env s = audio_stop env { s with set_pause_buf := true } := by
      unfold audio_poll
      dsimp only
      split_ifs
      all_goals first | rfl | (exfalso; simp_all; done) | (exfalso; tauto)
    rw [hstop]
    simp [audio_stop, hact, audio_is_active, audio_get_status_code]
  · intro hs hb
    rw [hwait hb]
    cases s
    simp only at hs
    simp [hs]

/-- Witness of C21: Play(10, 1) on the two-track disc puts the whole request into buffer A;
after the interrupt of channel A both buffers are STALE and the poll ends the session. -/
theorem audio_poll_out_of_data_witness :
    (audio_poll cd2_env (session_after_irq cd2_env cd2_state 10 1)).audio_idle = true ∧
    (audio_get_status_code
      (audio_poll cd2_env (session_after_irq cd2_env cd2_state 10 1))).1 = ASC_COMPLETED ∧
    audio_poll cd2_env (audio_play cd2_env cd2_state 10 1 false).2 =
      (audio_play cd2_env cd2_state 10 1 false).2 :=
  have h1 := (audio_poll_out_of_data cd2_env (session_after_irq cd2_env cd2_state 10 1)
    (by decide) (by decide) (by decide) (by decide)).1 (by decide) (by decide)
  have h2 := (audio_poll_out_of_data cd2_env (audio_play cd2_env cd2_state 10 1 false).2
    (by decide) (by decide) (by decide) (by decide)).2.2 (by decide) (Or.inl (by decide))
  ⟨h1.1, h1.2.2, h2⟩

/-- C21 fails as stated: in the resumed session the controller is active and not paused,
the last track is reached, `fleft` is 0 and buffer A is READY; the poll sets
`set_pause_buf`, which the poll made while paused had cleared, so the state is not the one
before the call. -/
theorem audio_poll_wait_sets_flag :
    drained_session.audio_idle = false ∧ drained_session.audio_paused = false ∧
    drained_session.last_track_reached = true ∧ drained_session.fleft = 0 ∧
    drained_session.sbufst_a = READY ∧
    drained_session.set_pause_buf = false ∧
    (audio_poll cd2_env drained_session).set_pause_buf = true ∧
    audio_poll cd2_env drained_session ≠ drained_session :=
  ⟨by decide, by decide, by decide, by decide, by decide, by decide, by decide,
    fun h => absurd (congrArg AudioState.set_pause_buf h) (by decide)⟩

theorem tdiv_scaled_le (vol : Nat) (x : Int) (hv : vol ≤ 255) :
    (Int.tdiv (x * (vol : Int)) 255).natAbs ≤ x.natAbs := by
  have hv' : (vol : Int) ≤ 255 := by exact_mod_cast hv
  have hv0 : (0 : Int) ≤ (vol : Int) := Int.ofNat_nonneg _
  rcases le_or_lt 0 x with hx0 | hx0
  · have hm0 : 0 ≤ x * (vol : Int) := Int.mul_nonneg hx0 hv0
    have hm1 : x * (vol : Int) ≤ x * 255 := Int.mul_le_mul_of_nonneg_left hv' hx0
    rw [Int.tdiv_eq_ediv hm0 (by decide)]
    omega
  · have hm0 : 0 ≤ (-x) * (vol : Int) := Int.mul_nonneg (by omega) hv0
    have hm1 : (-x) * (vol : Int) ≤ (-x) * 255 :=
      Int.mul_le_mul_of_nonneg_left hv' (by omega)
    have e : x * (vol : Int) = -((-x) * (vol : Int)) := by ring
    rw [e, Int.neg_tdiv, Int.tdiv_eq_ediv hm0 (by decide)]
    omega

theorem volume_le (env : AudioEnv) (volume0 volume1 channel : Nat) (hv0 : volume0 ≤ 255)
    (hv1 : volume1 ≤ 255) :
    left_volume env volume0 channel ≤ 255 ∧ right_volume env volume1 channel ≤ 255 := by
  unfold left_volume right_volume
  constructor <;> split <;> omega

/-- C23: when `snd_encode` runs in place on an even number `len` of 16-bit samples, with
`vol_left` and `vol_right` the 8-bit volumes it applies (0 for a disabled channel), it
keeps the length of the buffer and writes each stereo frame with its two samples in swapped
positions: for every frame `k`, output[2k] = trunc(input[2k+1] * vol_right / 255) and
output[2k+1] = trunc(input[2k] * vol_left / 255); the magnitude of an output sample does
not exceed that of the input sample it derives from, and every output sample is a 16-bit
value. -/
theorem snd_encode_swapped_in_place (env : AudioEnv) (volume0 volume1 channel : Nat)
    (buf : List Int) (len : Nat) (heven : len % 2 = 0) (hlen : len ≤ buf.length)
    (hv0 : volume0 ≤ 255) (hv1 : volume1 ≤ 255) (hs : ∀ x ∈ buf, IsInt16 x)
    (k : Nat) (hk : 2 * k + 1 < len) :
    (snd_encode env volume0 volume1 channel SamplePtr.same buf len).length = buf.length ∧
    (snd_encode env volume0 volume1 channel SamplePtr.same buf len).getD (2 * k) 0 =
      Int.tdiv (buf.getD (2 * k + 1) 0 * (right_volume env volume1 channel : Int)) 255 ∧
    (snd_encode env volume0 volume1 channel SamplePtr.same buf len).getD (2 * k + 1) 0 =
      Int.tdiv (buf.getD (2 * k) 0 * (left_volume env volume0 channel : Int)) 255 ∧
    ((snd_encode env volume0 volume1 channel SamplePtr.same buf len).getD (2 * k) 0).natAbs ≤
      (buf.getD (2 * k + 1) 0).natAbs ∧
    ((snd_encode env volume0 volume1 channel SamplePtr.same buf len).getD (2 * k + 1) 0).natAbs
      ≤ (buf.getD (2 * k) 0).natAbs ∧
    IsInt16 ((snd_encode env volume0 volume1 channel SamplePtr.same buf len).getD (2 * k) 0) ∧
    IsInt16
      ((snd_encode env volume0 volume1 channel SamplePtr.same buf len).getD (2 * k + 1) 0) := by
  have h := snd_encode_in_place env volume0 volume1 channel buf len heven hlen
  have hv := volume_le env volume0 volume1 channel hv0 hv1
  have er := scaled_eq (right_volume env volume1 channel) _
    (getD_IsInt16 buf hs (2 * k + 1)) hv.2
  have el := scaled_eq (left_volume env volume0 channel) _
    (getD_IsInt16 buf hs (2 * k)) hv.1
  have h0 := (h.2 k hk).1
  have h1 := (h.2 k hk).2
  rw [er.1] at h0
  rw [el.1] at h1
  rw [h0, h1]
  exact ⟨h.1, rfl, rfl, tdiv_scaled_le _ _ hv.2, tdiv_scaled_le _ _ hv.1, er.2, el.2⟩

/-- Witness of C23: two frames at volumes 128 (left) and 255 (right), both channels
enabled. -/
theorem snd_encode_swapped_in_place_witness :
    snd_encode cd2_env 128 255 513 SamplePtr.same [100, -200, 300, 32767] 4 =
      [-200, 50, 32767, 150] ∧
    (snd_encode cd2_env 128 255 513 SamplePtr.same [100, -200, 300, 32767] 4).getD 0 0 =
      Int.tdiv (([100, -200, 300, 32767] : List Int).getD 1 0 *
        (right_volume cd2_env 255 513 : Int)) 255 ∧
    (snd_encode cd2_env 128 255 513 SamplePtr.same [100, -200, 300, 32767] 4).getD 1 0 =
      Int.tdiv (([100, -200, 300, 32767] : List Int).getD 0 0 *
        (left_volume cd2_env 128 513 : Int)) 255 :=
  have h := snd_encode_swapped_in_place cd2_env 128 255 513 [100, -200, 300, 32767] 4
    (by decide) (by decide) (by decide) (by decide) (by simp [IsInt16]) 0 (by decide)
  ⟨by decide, h.2.1, h.2.2.1⟩

theorem FlagsAgree_of_same (a b : AudioState) (h : SameController a b) (hb : FlagsAgree b) :
    FlagsAgree a := by
  obtain ⟨h1, h2, h3, h4⟩ := h
  unfold FlagsAgree at hb ⊢
  rw [h1, h2, h3, h4]
  exact hb

theorem FlagsAgree_of_stopped (s : AudioState) (h : JustStopped s) : FlagsAgree s := by
  obtain ⟨h1, h2, h3, h4⟩ := h
  unfold FlagsAgree
  simp [h1, h2, h3, h4]

theorem audio_stop_flags (env : AudioEnv) (s : AudioState) :
    audio_stop env s = s ∨ JustStopped (audio_stop env s) := by
  unfold audio_stop
  cases h : s.audio_idle
  · right; exact ⟨rfl, rfl, rfl, rfl⟩
  · left; rfl

theorem audio_stop_agree (env : AudioEnv) (s : AudioState) (h : FlagsAgree s) :
    FlagsAgree (audio_stop env s) := by
  rcases audio_stop_flags env s with e | e
  · rw [e]; exact h
  · exact FlagsAgree_of_stopped _ e

theorem audio_stop_or_same (env : AudioEnv) (x s : AudioState) (h : SameController x s) :
    SameController (audio_stop env x) s ∨ JustStopped (audio_stop env x) := by
  rcases audio_stop_flags env x with e | e
  · left; rw [e]; exact h
  · right; exact e

theorem SameController_trans (a b c : AudioState) (h1 : SameController a b)
    (h2 : SameController b c) : SameController a c :=
  ⟨h1.1.trans h2.1, h1.2.1.trans h2.2.1, h1.2.2.1.trans h2.2.2.1, h1.2.2.2.trans h2.2.2.2⟩

theorem audio_poll_flags (env : AudioEnv) (s : AudioState) :
    SameController (audio_poll env s) s ∨ JustStopped (audio_poll env s) := by
  have hs1 : SameController { s with set_pause_buf := true } s := ⟨rfl, rfl, rfl, rfl⟩
  have hr : SameController (setup_playback env { s with set_pause_buf := true } 0 0 true).2 s :=
    SameController_trans _ _ _ (setup_playback_controller env _ 0 0 true) hs1
  unfold audio_poll
  dsimp only
  split_ifs
  · left; exact ⟨rfl, rfl, rfl, rfl⟩
  · left; exact ⟨rfl, rfl, rfl, rfl⟩
  · left; exact ⟨rfl, rfl, rfl, rfl⟩
  · exact audio_stop_or_same env _ s hs1
  · left; exact hs1
  · exact audio_stop_or_same env _ s hs1
  · exact audio_stop_or_same env _ s hr
  · left; exact SameController_trans _ _ _ (refill_controller env _) hr
  · left; exact SameController_trans _ _ _ (refill_controller env _) hs1

theorem audio_poll_agree (env : AudioEnv) (s : AudioState) (h : FlagsAgree s) :
    FlagsAgree (audio_poll env s) := by
  rcases audio_poll_flags env s with e | e
  · exact FlagsAgree_of_same _ _ e h
  · exact FlagsAgree_of_stopped _ e

theorem audio_play_agree (env : AudioEnv) (s : AudioState) (start length : Nat) (swap : Bool)
    (h : FlagsAgree s) : FlagsAgree (audio_play env s start length swap).2 := by
  have h1 : FlagsAgree (stopped_first env s) := by
    unfold stopped_first
    split
    · exact audio_stop_agree env s h
    · exact h
  have e : audio_play env s start length swap =
      (let r := setup_playback env (stopped_first env s) start length false
       if !r.1 then (false, r.2)
       else if length = 0 then
         (true, { r.2 with audio_last_status := ASC_NO_STATUS, audio_paused := false,
                           audio_playing := false, audio_idle := true })
       else (true, start_session env r.2)) := by
    unfold audio_play stopped_first start_session
    dsimp only
    split_ifs <;> rfl
  rw [e]
  dsimp only
  have hc := setup_playback_controller env (stopped_first env s) start length false
  generalize setup_playback env (stopped_first env s) start length false = r at hc ⊢
  split_ifs
  · exact FlagsAgree_of_same _ _ hc h1
  · simp [FlagsAgree]
  · unfold start_session
    dsimp only
    split_ifs
    · simp [FlagsAgree]
    · apply audio_poll_agree
      refine FlagsAgree_of_same _ (audio_poll env _) ⟨rfl, rfl, rfl, rfl⟩ ?_
      apply audio_poll_agree
      simp [FlagsAgree]

theorem audio_set_paused_agree (s : AudioState) (p : Bool) (h : FlagsAgree s) :
    FlagsAgree (audio_set_paused s p).2 := by
  unfold FlagsAgree at h ⊢
  unfold audio_set_paused
  cases hi : s.audio_idle <;> cases hp : s.audio_paused <;> cases p <;>
    simp_all

theorem audio_get_status_code_agree (s : AudioState) (h : FlagsAgree s) :
    FlagsAgree (audio_get_status_code s).2 ∧ (audio_get_status_code s).1 ≠ ASC_ERRORED := by
  obtain ⟨f1, f2, f3, f4, f5⟩ := h
  have hne : s.audio_last_status ≠ ASC_ERRORED := by
    intro he
    cases hi : s.audio_idle
    · cases hp : s.audio_paused
      · have := f5 hi hp; rw [he] at this; cases this
      · have := f4 hi hp; rw [he] at this; cases this
    · rcases f3 hi with h0 | h0 <;> rw [he] at h0 <;> cases h0
  refine ⟨?_, by rw [get_status_code_fst]; exact hne⟩
  unfold audio_get_status_code
  dsimp only
  split_ifs with hc
  · have hi : s.audio_idle = true := by
      cases hi : s.audio_idle
      · exfalso
        rcases hc with hc | hc
        · cases hp : s.audio_paused
          · have := f5 hi hp; rw [hc] at this; cases this
          · have := f4 hi hp; rw [hc] at this; cases this
        · exact hne hc
      · rfl
    unfold FlagsAgree
    refine ⟨f1, f2, fun _ => Or.inl rfl, ?_, ?_⟩
    · intro h0; rw [hi] at h0; cases h0
    · intro h0; rw [hi] at h0; cases h0
  · exact ⟨f1, f2, f3, f4, f5⟩

theorem audio_dma_irq_agree (s : AudioState) (a b : Bool) (h : FlagsAgree s) :
    FlagsAgree (audio_dma_irq s a b) := by
  unfold audio_dma_irq
  split_ifs <;> exact h

theorem run_call_agree (env : AudioEnv) (s : AudioState) (c : ApiCall) (h : FlagsAgree s) :
    FlagsAgree (run_call env s c) := by
  cases c with
  | play start length swap => exact audio_play_agree env s start length swap h
  | set_paused p => exact audio_set_paused_agree s p h
  | stop => exact audio_stop_agree env s h
  | poll => exact audio_poll_agree env s h
  | irq a b => exact audio_dma_irq_agree s a b h
  | get_status => exact (audio_get_status_code_agree s h).1

theorem run_calls_agree (env : AudioEnv) (calls : List ApiCall) :
    ∀ s : AudioState, FlagsAgree s → FlagsAgree (run_calls env calls s) := by
  induction calls with
  | nil => intro s h; exact h
  | cons c rest ih => intro s h; exact ih _ (run_call_agree env s c h)

/-- C22: in every state reached from a start-up state (controller flags and status as the
static initialisers leave them) through `audio_play`, `audio_set_paused`, `audio_stop`,
`audio_poll`, `audio_get_status_code` and DMA interrupts, `audio_playing` is the negation
of `audio_idle`, `audio_paused` implies not idle, an idle controller has status no-status or
completed, an active paused one has status paused, an active one that is not paused has
status playing; `audio_get_status_code` does not return errored there. -/
theorem controller_flags_invariant (env : AudioEnv) (s0 : AudioState) (calls : List ApiCall)
    (h0 : StartUpFlags s0) :
    (run_calls env calls s0).audio_playing = (!(run_calls env calls s0).audio_idle) ∧
    ((run_calls env calls s0).audio_paused = true →
      (run_calls env calls s0).audio_idle = false) ∧
    ((run_calls env calls s0).audio_idle = true →
      (run_calls env calls s0).audio_last_status = ASC_NO_STATUS ∨
      (run_calls env calls s0).audio_last_status = ASC_COMPLETED) ∧
    ((run_calls env calls s0).audio_idle = false →
      (run_calls env calls s0).audio_paused = true →
      (run_calls env calls s0).audio_last_status = ASC_PAUSED) ∧
    ((run_calls env calls s0).audio_idle = false →
      (run_calls env calls s0).audio_paused = false →
      (run_calls env calls s0).audio_last_status = ASC_PLAYING) ∧
    (audio_get_status_code (run_calls env calls s0)).1 ≠ ASC_ERRORED := by
  obtain ⟨i1, i2, i3, i4⟩ := h0
  have hinit : FlagsAgree s0 := by
    unfold FlagsAgree
    simp [i1, i2, i3, i4]
  have h := run_calls_agree env calls s0 hinit
  have hs := (audio_get_status_code_agree _ h).2
  obtain ⟨f1, f2, f3, f4, f5⟩ := h
  exact ⟨f1, f2, f3, f4, f5, hs⟩

/-- Witness of C22: on the two-track disc, Play(10, 20), pause, poll, status, stop,
status. The controller ends idle with status no-status. -/
theorem controller_flags_invariant_witness :
    StartUpFlags cd2_state ∧
    (run_calls cd2_env [ApiCall.play 10 20 false, ApiCall.set_paused true, ApiCall.poll,
      ApiCall.get_status, ApiCall.stop, ApiCall.get_status] cd2_state).audio_playing =
      (!(run_calls cd2_env [ApiCall.play 10 20 false, ApiCall.set_paused true, ApiCall.poll,
        ApiCall.get_status, ApiCall.stop, ApiCall.get_status] cd2_state).audio_idle) ∧
    (audio_get_status_code
      (run_calls cd2_env [ApiCall.play 10 20 false, ApiCall.set_paused true, ApiCall.poll,
        ApiCall.get_status, ApiCall.stop, ApiCall.get_status] cd2_state)).1 ≠ ASC_ERRORED :=
  have h := controller_flags_invariant cd2_env cd2_state
    [ApiCall.play 10 20 false, ApiCall.set_paused true, ApiCall.poll, ApiCall.get_status,
      ApiCall.stop, ApiCall.get_status] ⟨rfl, rfl, rfl, rfl⟩
  ⟨⟨rfl, rfl, rfl, rfl⟩, h.1, h.2.2.2.2.2⟩

end ZuluAudio
